import Mathlib

/-!
Shallow embedding of the retirement-simulator repository (Rust) in Lean 4.

Numeric model: the Rust code computes on `f32`; this embedding models those
values as exact rationals (`ℚ`), the idealized real-number semantics the
specification describes.  Machine integers (`u32`, `usize`) are modelled as
`Nat`.  Rust panics (out-of-range tax income, fuel-less loops) are modelled
with `Option`, `none` standing for the panic / non-termination.

Dates: the code uses `chrono::NaiveDate` (proleptic Gregorian calendar).
We model a date as a year/month/day record; ordering is lexicographic
(chronological, as for `NaiveDate`), `checked_add_months(1)` increments the
calendar month clamping the day to the target month's length, and day
arithmetic (used by `utils::add_years`, which adds `365 * years` days) goes
through the standard civil-calendar day-number conversion.

`utils::get_monthly_rate` computes `(1 + r)^(1/12) - 1`, an irrational
function; the embedding passes it as an explicit parameter `mr : ℚ → ℚ`
wherever the code calls it, so theorems state the exact property of the
rate function they rely on (e.g. `mr 0 = 0`, which holds exactly even in
IEEE arithmetic since `powf(1.0, e) = 1.0`).
-/

/-- Proleptic-Gregorian leap-year test (as in chrono). -/
def isLeapYear (y : Int) : Bool :=
  y % 4 == 0 && (y % 100 != 0 || y % 400 == 0)

/-- Number of days in month `m` (1-12) of year `y`. -/
def daysInMonth (y : Int) (m : Nat) : Nat :=
  if m == 2 then (if isLeapYear y then 29 else 28)
  else if m == 4 || m == 6 || m == 9 || m == 11 then 30
  else 31

/-- Model of `chrono::NaiveDate`: a proleptic-Gregorian calendar date. -/
structure Date where
  year : Int
  month : Nat
  day : Nat
deriving DecidableEq, Repr

instance : Inhabited Date := ⟨⟨0, 1, 1⟩⟩

/-- `NaiveDate` ordering is chronological: lexicographic on (year, month, day). -/
def Date.lt (a b : Date) : Bool :=
  decide (a.year < b.year) ||
    (decide (a.year = b.year) &&
      (decide (a.month < b.month) ||
        (decide (a.month = b.month) && decide (a.day < b.day))))

/-- `<=` on dates: `<` or equal. -/
def Date.le (a b : Date) : Bool :=
  Date.lt a b || decide (a = b)

/-- Model of `NaiveDate::checked_add_months(Months::new(1))`: advance to the
next calendar month, clamping the day-of-month to the target month's length
(the `.unwrap()` in the code can only fail at the end of the representable
range, which the `Int` year never reaches). -/
def Date.addOneMonth (d : Date) : Date :=
  if d.month < 12 then
    { year := d.year, month := d.month + 1,
      day := min d.day (daysInMonth d.year (d.month + 1)) }
  else
    { year := d.year + 1, month := 1, day := min d.day 31 }

/-- Civil-calendar day number (days since 1970-01-01) of a date; the standard
days-from-civil algorithm for the proleptic Gregorian calendar. -/
def Date.toDays (dt : Date) : Int :=
  let y : Int := if dt.month ≤ 2 then dt.year - 1 else dt.year
  let m : Int := dt.month
  let d : Int := dt.day
  let era : Int := Int.ediv y 400
  let yoe : Int := y - era * 400
  let mp : Int := if 2 < dt.month then m - 3 else m + 9
  let doy : Int := Int.ediv (153 * mp + 2) 5 + d - 1
  let doe : Int := yoe * 365 + Int.ediv yoe 4 - Int.ediv yoe 100 + doy
  era * 146097 + doe - 719468

/-- Inverse of `Date.toDays`: the standard civil-from-days algorithm. -/
def Date.ofDays (z0 : Int) : Date :=
  let z : Int := z0 + 719468
  let era : Int := Int.ediv z 146097
  let doe : Int := z - era * 146097
  let yoe : Int :=
    Int.ediv (doe - Int.ediv doe 1460 + Int.ediv doe 36524 - Int.ediv doe 146096) 365
  let y : Int := yoe + era * 400
  let doy : Int := doe - (365 * yoe + Int.ediv yoe 4 - Int.ediv yoe 100)
  let mp : Int := Int.ediv (5 * doy + 2) 153
  let d : Int := doy - Int.ediv (153 * mp + 2) 5 + 1
  let m : Int := if mp < 10 then mp + 3 else mp - 9
  { year := if m ≤ 2 then y + 1 else y, month := m.toNat, day := d.toNat }

/-- `utils::add_years`: adds `years * 365` days to a date (the code uses
`Duration::days(365 * years)`; the overflow fallback branch is unreachable
with unbounded years). -/
def add_years (date : Date) (years : Nat) : Date :=
  Date.ofDays (date.toDays + 365 * (years : Int))

/-- `chrono::NaiveDate::years_since`: whole years from `base` until `self`,
`none` when `self` is earlier (by whole years) than `base`. -/
def years_since (self base : Date) : Option Nat :=
  let years : Int :=
    self.year - base.year -
      (if decide (self.month < base.month) ||
          (decide (self.month = base.month) && decide (self.day < base.day))
       then 1 else 0)
  if 0 ≤ years then some years.toNat else none

/-- `utils::get_age`: `years_since`, defaulting to 0. -/
def get_age (date_of_birth current_date : Date) : Nat :=
  match years_since current_date date_of_birth with
  | some v => v
  | none => 0

/-- `portfolio::Allocation` (percentages 0-100 per asset class). -/
structure Allocation where
  us_equities : ℚ
  international : ℚ
  bonds : ℚ
deriving DecidableEq, Repr

/-- `portfolio::Portfolio`. -/
structure Portfolio where
  balance : ℚ
  pre_retirement_allocation : Allocation
  post_retirement_allocation : Allocation
  us_equity_expected_returns : ℚ
  us_equity_standard_deviation : ℚ
  international_equity_expected_returns : ℚ
  international_equity_standard_deviation : ℚ
  bonds_expected_returns : ℚ
  bonds_standard_deviation : ℚ
  expected_inflation : ℚ
deriving DecidableEq, Repr

/-- `Portfolio::deposit`: adds to balance unconditionally. -/
def Portfolio.deposit (p : Portfolio) (amount : ℚ) : Portfolio :=
  { p with balance := p.balance + amount }

/-- `Portfolio::withdraw`: subtracts, clamping the balance at zero. -/
def Portfolio.withdraw (p : Portfolio) (amount : ℚ) : Portfolio :=
  let b := p.balance - amount
  { p with balance := if b < 0 then 0 else b }

/-- `Portfolio::grow`.  `mr` stands for `utils::get_monthly_rate`.  NOTE:
this mirrors the source exactly, including line 63 of portfolio.rs, which
binds the PRE-retirement allocation when `use_post_retirement` is true and
the POST-retirement allocation when it is false.  Returns the grown
portfolio and the allocation-weighted annualized return. -/
def Portfolio.grow (mr : ℚ → ℚ) (p : Portfolio)
    (us_r intl_r bonds_r : ℚ) (use_post_retirement : Bool) : Portfolio × ℚ :=
  let allocation :=
    if use_post_retirement then p.pre_retirement_allocation
    else p.post_retirement_allocation
  let us_equity := p.balance * allocation.us_equities / 100 * (mr (us_r / 100) + 1)
  let international_equity :=
    p.balance * allocation.international / 100 * (mr (intl_r / 100) + 1)
  let bonds_amount := p.balance * allocation.bonds / 100 * (mr (bonds_r / 100) + 1)
  ({ p with balance := us_equity + international_equity + bonds_amount },
    us_r * allocation.us_equities / 100 +
      intl_r * allocation.international / 100 +
      bonds_r * allocation.bonds / 100)

/-- `main::TaxLevel` (after config post-processing, `income` is the bracket
ceiling in annual terms; the last one is `f32::MAX`). -/
structure TaxLevel where
  income : ℚ
  rate : ℚ
deriving DecidableEq, Repr

/-- `main::TaxRates`. -/
structure TaxRates where
  standard_deduction : ℚ
  tax_levels : List TaxLevel
deriving DecidableEq, Repr

/-- `main::Retiree` (validated configuration record). -/
structure Retiree where
  name : String
  date_of_birth : Date
  retirement_age : Nat
  life_expectency : Nat
  salary_annual : ℚ
  retirement_contribution_percent : ℚ
  social_security_age : Nat
  pension_age : Nat
  pension_monthly_income : ℚ
  other_monthly_retirement_income : ℚ
  social_security_amount_early : ℚ
  social_security_amount_full : ℚ
  social_security_amount_delayed : ℚ
deriving DecidableEq, Repr

/-- `main::Expenses`. -/
structure Expenses where
  monthly : ℚ
deriving DecidableEq, Repr

/-- `main::Input`: the validated household configuration. -/
structure Input where
  retirees : List Retiree
  portfolio : Portfolio
  expenses : Expenses
  tax_rates : TaxRates
deriving DecidableEq, Repr

/-- `f32::MAX`, exactly `(2 - 2 ^ (-23)) * 2 ^ 127`. -/
def f32Max : ℚ := 340282346638528859811704183484516925440

/-- `simulate::MonthlySnapshot`. -/
structure MonthlySnapshot where
  date : Date
  balance : ℚ
  expenses : ℚ
  income : ℚ
  tax_rate : ℚ
  taxes : ℚ
  withdrawal_rate : ℚ
  annualized_return : ℚ
deriving DecidableEq, Repr

/-- `simulate::RetireeInfo`. -/
structure RetireeInfo where
  name : String
  social_security_date : Date
  date_of_birth : Date
  social_security_income : ℚ
deriving DecidableEq, Repr

instance : Inhabited RetireeInfo := ⟨⟨"", default, default, 0⟩⟩

/-- `simulate::SimulationResults`. -/
structure SimulationResults where
  retirement_date : Date
  retirement_age : Nat
  retirees : List RetireeInfo
  monthly_snapshot : List MonthlySnapshot
  average_return : ℚ
deriving DecidableEq, Repr

/-- `simulate::is_everyone_dead`: true when every retiree's age strictly
exceeds their configured life expectancy at `current_date`. -/
def is_everyone_dead (current_date : Date) (input : Input) : Bool :=
  input.retirees.all fun r =>
    decide (r.life_expectency < get_age r.date_of_birth current_date)

/-- The standard-deduction step at the top of `simulate::get_taxes`:
subtract one-twelfth of the annual deduction, flooring at zero. -/
def deduct (monthly_income standard_deduction : ℚ) : ℚ :=
  if monthly_income > standard_deduction / 12 then
    monthly_income - standard_deduction / 12
  else 0

/-- The bracket walk of `simulate::get_taxes`: falling off the end of the
list is the `panic!("Tax rate too high!")`, modelled as `none`. -/
def tax_walk (monthly_income total_tax : ℚ) : List TaxLevel → Option (ℚ × ℚ)
  | [] => none
  | l :: ls =>
    if monthly_income * 12 ≤ l.income then
      some (total_tax + monthly_income * l.rate / 100, l.rate)
    else
      tax_walk (monthly_income - l.income / 12)
        (total_tax + l.income / 12 * l.rate / 100) ls

/-- `simulate::get_taxes`: returns (total tax, marginal rate) for a monthly
income, or `none` for the fatal no-bracket-covers-income condition. -/
def get_taxes (monthly_income standard_deduction : ℚ)
    (tax_rates : List TaxLevel) : Option (ℚ × ℚ) :=
  tax_walk (deduct monthly_income standard_deduction) 0 tax_rates

/-- `simulate::get_social_security_monthly_income`: age-banded linear
interpolation of the three benefit tiers. -/
def get_social_security_monthly_income (retirement_age : Nat)
    (benefit_early benefit_full benefit_delayed : ℚ) : ℚ :=
  let min_age : Nat := 62
  let normal_age : Nat := 67
  let max_age : Nat := 70
  if retirement_age ≥ max_age then benefit_delayed
  else if retirement_age < min_age then 0
  else if retirement_age ≥ normal_age then
    benefit_full +
      (benefit_delayed - benefit_full) * ((retirement_age - normal_age : Nat) : ℚ) /
        ((max_age - normal_age : Nat) : ℚ)
  else
    benefit_early +
      (benefit_full - benefit_early) * ((retirement_age - min_age : Nat) : ℚ) /
        ((normal_age - min_age : Nat) : ℚ)

/-- `simulate::Simulation` (the per-scenario mutable engine state). -/
structure Simulation where
  simulation_results_ : SimulationResults
  input_ : Input
  current_date_ : Date
  portfolio_ : Portfolio
  expenses_ : ℚ
  tax_rates_ : List TaxLevel
  sum_of_returns_ : ℚ
deriving DecidableEq, Repr

/-- `Simulation::new`.  The Rust constructor reads the current UTC date from
the system clock; it is passed here as the parameter `current_date`.  The
indexing `input.retirees[0]` panics on an empty retiree list, modelled as
`none`. -/
def Simulation.new (input : Input) (current_date : Date) : Option Simulation :=
  match input.retirees with
  | [] => none
  | r0 :: _ =>
    let retirement_date := add_years r0.date_of_birth r0.retirement_age
    let retirees : List RetireeInfo := input.retirees.map fun r =>
      { name := r.name
        social_security_date := add_years r.date_of_birth r.social_security_age
        date_of_birth := r.date_of_birth
        social_security_income :=
          get_social_security_monthly_income r.social_security_age
            r.social_security_amount_early r.social_security_amount_full
            r.social_security_amount_delayed }
    some
      { simulation_results_ :=
          { retirement_date := retirement_date
            retirement_age := r0.retirement_age
            retirees := retirees
            monthly_snapshot := []
            average_return := 0 }
        input_ := input
        current_date_ := current_date
        portfolio_ := input.portfolio
        expenses_ := input.expenses.monthly
        tax_rates_ := input.tax_rates.tax_levels
        sum_of_returns_ := 0 }

/-- The social-security loop of `run_simulation_one_month` (simulate.rs
184-189): iterates over the `input` retirees by index, reading the derived
claim date and fixed benefit from `simulation_results_.retirees[i]`
(in states produced by `Simulation::new` the two lists are aligned; Rust
panics on an out-of-range index, modelled by the `getD` default, which no
aligned state reaches).  Benefit counts only STRICTLY after the claim date. -/
def social_security_income_total (current_date : Date) (n : Nat)
    (retirees : List RetireeInfo) : ℚ :=
  (List.range n).foldl
    (fun acc i =>
      let ri := retirees.getD i default
      if Date.lt ri.social_security_date current_date then
        acc + ri.social_security_income
      else acc)
    0

/-- The pension loop (simulate.rs 195-201): pension counts from the pension
claim date onward (greater-or-equal). -/
def pension_income_total (current_date : Date) (retirees : List Retiree) : ℚ :=
  retirees.foldl
    (fun acc r =>
      if Date.le (add_years r.date_of_birth r.pension_age) current_date then
        acc + r.pension_monthly_income
      else acc)
    0

/-- The other-retirement-income loop (simulate.rs 204-209): counts from the
household retirement date onward (greater-or-equal). -/
def other_income_total (current_date retirement_date : Date)
    (retirees : List Retiree) : ℚ :=
  retirees.foldl
    (fun acc r =>
      if Date.le retirement_date current_date then
        acc + r.other_monthly_retirement_income
      else acc)
    0

/-- The pre-retirement-contribution loop of `run_simulation_one_month`
(simulate.rs 176-181): each retiree's `salary * contribution% / 100 / 12` is
deposited while the current date is before the retirement date. -/
def contributions_portfolio (s : Simulation) : Portfolio :=
  s.input_.retirees.foldl
    (fun p r =>
      if Date.lt s.current_date_ s.simulation_results_.retirement_date then
        p.deposit (r.salary_annual * r.retirement_contribution_percent / 100 / 12)
      else p)
    s.portfolio_

/-- The month's total income (simulate.rs 184-209): social security (strict
comparison) plus pension plus other retirement income (both non-strict). -/
def month_income (s : Simulation) : ℚ :=
  social_security_income_total s.current_date_ s.input_.retirees.length
      s.simulation_results_.retirees +
    pension_income_total s.current_date_ s.input_.retirees +
    other_income_total s.current_date_ s.simulation_results_.retirement_date
      s.input_.retirees

/-- The month's taxable income: 85% of social security, 100% of pension and
other income. -/
def month_taxable_income (s : Simulation) : ℚ :=
  social_security_income_total s.current_date_ s.input_.retirees.length
      s.simulation_results_.retirees * (85 / 100) +
    pension_income_total s.current_date_ s.input_.retirees +
    other_income_total s.current_date_ s.simulation_results_.retirement_date
      s.input_.retirees

/-- The month's required withdrawals (simulate.rs 212-217): the expense
shortfall, and only at/after the retirement date. -/
def month_withdrawals (s : Simulation) : ℚ :=
  if Date.le s.simulation_results_.retirement_date s.current_date_ then
    (if month_income s < s.expenses_ then s.expenses_ - month_income s else 0)
  else 0

/-- The tail of `run_simulation_one_month` after `get_taxes` returned
`(taxes0, tax_rate)` (simulate.rs 225-276): gross-up, cash flows in source
order (deposit surplus, withdraw taxes, withdraw expenses — each clamped),
growth, average-return update, snapshot append, date advance; paired with
the `balance == 0` finished flag the function returns. -/
def month_finish (mr : ℚ → ℚ) (s : Simulation) (us_r intl_r bonds_r : ℚ)
    (taxes0 tax_rate : ℚ) : Bool × Simulation :=
  let rd := s.simulation_results_.retirement_date
  let p1 := contributions_portfolio s
  let income := month_income s
  let withdrawals := month_withdrawals s
  -- gross-up: the infinite power series of tax-on-tax withdrawals
  let taxes := taxes0 / (1 - tax_rate / 100)
  let withdrawal_rate :=
    if 0 < p1.balance then (withdrawals + taxes) * 12 / p1.balance else 0
  let p2 := if s.expenses_ < income then p1.deposit (income - s.expenses_) else p1
  let p3 := if taxes < p2.balance then p2.withdraw taxes else { p2 with balance := 0 }
  let p4 :=
    if withdrawals < p3.balance then p3.withdraw withdrawals
    else { p3 with balance := 0 }
  let grown := Portfolio.grow mr p4 us_r intl_r bonds_r (Date.le rd s.current_date_)
  let p5 := grown.1
  let annualized_return := grown.2
  let sum_of_returns := s.sum_of_returns_ + annualized_return
  let average_return :=
    sum_of_returns / ((s.simulation_results_.monthly_snapshot.length : ℚ) + 1)
  let snap : MonthlySnapshot :=
    { date := s.current_date_
      balance := p5.balance
      expenses := if Date.le rd s.current_date_ then s.expenses_ else 0
      income := income
      tax_rate := tax_rate
      taxes := taxes
      withdrawal_rate := withdrawal_rate
      annualized_return := annualized_return }
  let results :=
    { s.simulation_results_ with
        monthly_snapshot := s.simulation_results_.monthly_snapshot ++ [snap]
        average_return := average_return }
  (decide (p5.balance = 0),
    { s with
        simulation_results_ := results
        portfolio_ := p5
        current_date_ := Date.addOneMonth s.current_date_
        sum_of_returns_ := sum_of_returns })

/-- `Simulation::run_simulation_one_month`.  Returns `none` for the
`get_taxes` panic, otherwise `some (is_finished, updated state)`.  The
straight-line Rust body is split here into the named pieces above
(`contributions_portfolio`, `month_income`, `month_taxable_income`,
`month_withdrawals`, `month_finish`) in source order. -/
def run_simulation_one_month (mr : ℚ → ℚ) (s : Simulation)
    (us_r intl_r bonds_r : ℚ) : Option (Bool × Simulation) :=
  if is_everyone_dead s.current_date_ s.input_ then some (true, s)
  else
    match get_taxes (month_withdrawals s + month_taxable_income s)
        s.input_.tax_rates.standard_deduction s.tax_rates_ with
    | none => none
    | some (taxes0, tax_rate) =>
      some (month_finish mr s us_r intl_r bonds_r taxes0 tax_rate)

/-- Iterates `run_simulation_one_month` `n` times with fixed returns (the
shape of the `run_simulation` driver loop, cut off after `n` months). -/
def runN (mr : ℚ → ℚ) (us_r intl_r bonds_r : ℚ) : Nat → Simulation → Option Simulation
  | 0, s => some s
  | n + 1, s =>
    match run_simulation_one_month mr s us_r intl_r bonds_r with
    | none => none
    | some (_, s') => runN mr us_r intl_r bonds_r n s'

instance : Inhabited MonthlySnapshot := ⟨⟨default, 0, 0, 0, 0, 0, 0, 0⟩⟩

/-- `scan::Scenario`. -/
structure Scenario where
  simulation_results : SimulationResults
  starting_year : Nat
  ending_year : Nat
deriving DecidableEq, Repr

/-- `scan::ScenarioSortingInfo`. -/
structure ScenarioSortingInfo where
  index : Nat
  num_months : Nat
  ending_balance : ℚ
deriving DecidableEq, Repr

/-- `scan::ScanResults`. -/
structure ScanResults where
  scenario_results : List Scenario
  num_simulations : Nat
  num_successful : Nat
  min_balance : ℚ
  max_balance : ℚ
  sorted_indices : List Nat
  sorting_info : List ScenarioSortingInfo
deriving DecidableEq, Repr

/-- `ScanResults::new`: extrema start at `f32::MAX` and `0`. -/
def ScanResults.new : ScanResults :=
  { scenario_results := []
    num_simulations := 0
    num_successful := 0
    min_balance := f32Max
    max_balance := 0
    sorted_indices := []
    sorting_info := [] }

/-- `ScanResults::add_sorting_info`. -/
def ScanResults.add_sorting_info (r : ScanResults) (index num_months : Nat)
    (ending_balance : ℚ) : ScanResults :=
  { r with sorting_info := r.sorting_info ++
      [{ index := index, num_months := num_months, ending_balance := ending_balance }] }

/-- The comparator of `ScanResults::sort_results` and of the historical
scan's failed-scenario sort: months survived ascending, then ending balance
ascending. -/
def worstFirstLE (a b : Nat × ℚ) : Bool :=
  decide (a.1 < b.1) || (decide (a.1 = b.1) && decide (a.2 ≤ b.2))

/-- Stable insertion of one element into a sorted list (the new element goes
after existing comparator-equal elements, as in Rust's stable `sort_by`). -/
def insertSorted (le : α → α → Bool) (x : α) : List α → List α
  | [] => [x]
  | y :: ys => if le y x then y :: insertSorted le x ys else x :: y :: ys

/-- Stable sort by a comparator (a structurally recursive stand-in for
Rust's stable `sort_by`; stability plus sortedness pin the result down). -/
def stableSortBy (le : α → α → Bool) (l : List α) : List α :=
  l.foldl (fun acc x => insertSorted le x acc) []

/-- `ScanResults::sort_results`: sorts the sorting records worst-to-best and
appends their indices. -/
def ScanResults.sort_results (r : ScanResults) : ScanResults :=
  let sorted := stableSortBy
    (fun a b => worstFirstLE (a.num_months, a.ending_balance) (b.num_months, b.ending_balance))
    r.sorting_info
  { r with sorting_info := sorted
           sorted_indices := r.sorted_indices ++ sorted.map fun v => v.index }

/-- The final (last-snapshot) balance of a scenario, as read by
`scan::add_scenario_to_results` via `monthly_snapshot[len - 1]` (Rust panics
on an empty snapshot list; scenarios always carry at least one snapshot,
and the `getLastD` default covers the unreachable empty case). -/
def lastBalance (sc : Scenario) : ℚ :=
  (sc.simulation_results.monthly_snapshot.getLastD default).balance

/-- `scan::add_scenario_to_results`: note that `min_balance`/`max_balance`
are updated for EVERY scenario, before the `last_balance > 0` success test. -/
def add_scenario_to_results (results : ScanResults) (scenario : Scenario)
    (index : Nat) : ScanResults :=
  let results := { results with num_simulations := results.num_simulations + 1 }
  let last_balance := lastBalance scenario
  let results :=
    { results with min_balance := min results.min_balance last_balance
                   max_balance := max results.max_balance last_balance }
  let results := results.add_sorting_info index
    scenario.simulation_results.monthly_snapshot.length last_balance
  let results :=
    if 0 < last_balance then
      { results with num_successful := results.num_successful + 1 }
    else results
  { results with scenario_results := results.scenario_results ++ [scenario] }

/-- The aggregation loop of `monte_carlo::MonteCarloScan::run_scan`, applied
to the (externally sampled) list of completed scenario outcomes: each is fed
to `add_scenario_to_results` with its loop index, then `sort_results` runs. -/
def run_scan_aggregate_go (acc : ScanResults) (idx : Nat) : List Scenario → ScanResults
  | [] => acc
  | sc :: rest => run_scan_aggregate_go (add_scenario_to_results acc sc idx) (idx + 1) rest

/-- Aggregate a list of scenario outcomes exactly as the Monte Carlo scan
does (indices 0, 1, 2, ...), finishing with `sort_results`. -/
def run_scan_aggregate (scenarios : List Scenario) : ScanResults :=
  ScanResults.sort_results (run_scan_aggregate_go ScanResults.new 0 scenarios)

/-- `historical_scan::HistoricalReturnsOneYear` (one parsed CSV record). -/
structure HistoricalReturnsOneYear where
  year : Nat
  inflation : ℚ
  sp500return : ℚ
  tbill3month : ℚ
  tbill10year : ℚ
  corpBonds : ℚ
  realEstate : ℚ
  international : Option ℚ
deriving DecidableEq, Repr

instance : Inhabited HistoricalReturnsOneYear := ⟨⟨0, 0, 0, 0, 0, 0, 0, none⟩⟩

/-- `historical_scan::HistoricalScenario`. -/
structure HistoricalScenario where
  simulation_results : SimulationResults
  starting_year : Nat
  ending_year : Nat
deriving DecidableEq, Repr

/-- The final balance of a historical scenario (`monthly_snapshot[len - 1]`
in `run_historical_scan`). -/
def lastBalanceH (sc : HistoricalScenario) : ℚ :=
  (sc.simulation_results.monthly_snapshot.getLastD default).balance

/-- The inner `for month in 0..12` loop of `historical_scan::run_scenario`:
runs up to `k` months against one year's return record (international
defaulting to the domestic equity figure), stopping early-and-reporting when
a month says the simulation finished. -/
def stepMonths (mr : ℚ → ℚ) (s : Simulation) (rec : HistoricalReturnsOneYear) :
    Nat → Option (Bool × Simulation)
  | 0 => some (false, s)
  | k + 1 =>
    match run_simulation_one_month mr s rec.sp500return
        (rec.international.getD rec.sp500return) rec.tbill10year with
    | none => none
    | some (true, s') => some (true, s')
    | some (false, s') => stepMonths mr s' rec k

/-- The `'outer: loop` of `historical_scan::run_scenario`: 12 months per
historical index, then advance the index, wrapping past the end of the
dataset.  The Rust loop has no bound; `fuel` counts the remaining outer
iterations, `none` standing for fuel running out (non-termination) or a
panic below.  Returns the finished simulation and the index current when it
finished (used for `ending_year`). -/
def runScenarioLoop (mr : ℚ → ℚ) (records : List HistoricalReturnsOneYear)
    (fuel : Nat) (s : Simulation) (index : Nat) : Option (Simulation × Nat) :=
  match fuel with
  | 0 => none
  | f + 1 =>
    match stepMonths mr s (records.getD index default) 12 with
    | none => none
    | some (true, s') => some (s', index)
    | some (false, s') =>
      let index1 := index + 1
      let index2 := if records.length ≤ index1 then 0 else index1
      runScenarioLoop mr records f s' index2

/-- `historical_scan::run_scenario`. -/
def run_scenario (mr : ℚ → ℚ) (records : List HistoricalReturnsOneYear)
    (fuel : Nat) (starting_index : Nat) (input : Input) (current_date : Date) :
    Option HistoricalScenario :=
  match Simulation.new input current_date with
  | none => none
  | some simulation =>
    match runScenarioLoop mr records fuel simulation starting_index with
    | none => none
    | some (s', index) =>
      some
        { simulation_results := s'.simulation_results_
          starting_year := (records.getD starting_index default).year
          ending_year := (records.getD index default).year }

/-- `historical_scan::FailedInfo`. -/
structure FailedInfo where
  index : Nat
  num_months : Nat
  ending_balance : ℚ
deriving DecidableEq, Repr

/-- `historical_scan::HistoricalScanResults`. -/
structure HistoricalScanResults where
  scenario_results : List HistoricalScenario
  num_simulations : Nat
  num_successful : Nat
  min_balance : ℚ
  max_balance : ℚ
  indices_failed : List Nat
deriving DecidableEq, Repr

/-- The initial accumulator of `run_historical_scan` (extrema at `f32::MAX`
and `0`). -/
def histInit : HistoricalScanResults :=
  { scenario_results := []
    num_simulations := 0
    num_successful := 0
    min_balance := f32Max
    max_balance := 0
    indices_failed := [] }

/-- One iteration of the `run_historical_scan` aggregation (lines 224-239):
count the run; update the extrema ONLY when the final balance is positive
(successful); otherwise record a FailedInfo; always push the scenario. -/
def addHistoricalScenario (acc : HistoricalScanResults × List FailedInfo)
    (sc : HistoricalScenario) (index : Nat) :
    HistoricalScanResults × List FailedInfo :=
  let results := { acc.1 with num_simulations := acc.1.num_simulations + 1 }
  let last_balance := lastBalanceH sc
  if 0 < last_balance then
    ({ results with
        num_successful := results.num_successful + 1
        min_balance := min results.min_balance last_balance
        max_balance := max results.max_balance last_balance
        scenario_results := results.scenario_results ++ [sc] },
      acc.2)
  else
    ({ results with scenario_results := results.scenario_results ++ [sc] },
      acc.2 ++
        [{ index := index
           num_months := sc.simulation_results.monthly_snapshot.length
           ending_balance := last_balance }])

/-- The `for index in 0..len` loop of `run_historical_scan`, over an
explicit list of starting indices; a failed (`Err`/panic) scenario aborts
the scan. -/
def scanLoop (mr : ℚ → ℚ) (records : List HistoricalReturnsOneYear)
    (fuel : Nat) (input : Input) (current_date : Date) :
    List Nat → HistoricalScanResults × List FailedInfo →
      Option (HistoricalScanResults × List FailedInfo)
  | [], acc => some acc
  | i :: rest, acc =>
    match run_scenario mr records fuel i input current_date with
    | none => none
    | some sc =>
      scanLoop mr records fuel input current_date rest (addHistoricalScenario acc sc i)

/-- `historical_scan::run_historical_scan` (given the already-parsed records
and the clock date): run one scenario per starting index, aggregate, then
sort the failed scenarios worst-to-best into `indices_failed`. -/
def run_historical_scan (mr : ℚ → ℚ) (records : List HistoricalReturnsOneYear)
    (fuel : Nat) (input : Input) (current_date : Date) :
    Option HistoricalScanResults :=
  match scanLoop mr records fuel input current_date
      (List.range records.length) (histInit, []) with
  | none => none
  | some (results, failed) =>
    let sorted := stableSortBy
      (fun a b => worstFirstLE (a.num_months, a.ending_balance) (b.num_months, b.ending_balance))
      failed
    some { results with
        indices_failed := results.indices_failed ++ sorted.map fun v => v.index }

/-!  ## Derived characterizations and helper definitions  -/

set_option maxRecDepth 100000

/-- Sum of an allocation's three percentage fractions. -/
def allocSum (a : Allocation) : ℚ :=
  a.us_equities + a.international + a.bonds

/-- Sum of all bracket ceilings of a tax schedule. -/
def sumCeil (levels : List TaxLevel) : ℚ :=
  (levels.map fun l => l.income).sum

/-- Extrema over only the SUCCESSFUL (positive final balance) scenarios of a
historical scan, as a running fold from an initial value — the quantity the
specification says the scan's `min_balance` tracks. -/
def minOverSuccessful (init : ℚ) (scs : List HistoricalScenario) : ℚ :=
  scs.foldl (fun m sc => if 0 < lastBalanceH sc then min m (lastBalanceH sc) else m) init

/-- Running maximum over only the successful scenarios. -/
def maxOverSuccessful (init : ℚ) (scs : List HistoricalScenario) : ℚ :=
  scs.foldl (fun m sc => if 0 < lastBalanceH sc then max m (lastBalanceH sc) else m) init

/-- Running minimum over ALL scenarios' final balances (what the generic
`scan::add_scenario_to_results` fold actually computes). -/
def minOverAll (init : ℚ) (scs : List Scenario) : ℚ :=
  scs.foldl (fun m sc => min m (lastBalance sc)) init

/-- Running maximum over ALL scenarios' final balances. -/
def maxOverAll (init : ℚ) (scs : List Scenario) : ℚ :=
  scs.foldl (fun m sc => max m (lastBalance sc)) init

/-!  ## Tax lemmas  -/

lemma tax_walk_ge_acc :
    ∀ (L : List TaxLevel) (y acc t r : ℚ), 0 ≤ y →
      (∀ l ∈ L, 0 ≤ l.rate ∧ 0 ≤ l.income) →
      tax_walk y acc L = some (t, r) → acc ≤ t := by
  intro L
  induction L with
  | nil => intro y acc t r _ _ h; simp [tax_walk] at h
  | cons l ls ih =>
    intro y acc t r hy hnn h
    have hl := hnn l (by simp)
    simp only [tax_walk] at h
    split at h
    · simp only [Option.some.injEq, Prod.mk.injEq] at h
      obtain ⟨ht, _⟩ := h
      have h1 : 0 ≤ y * l.rate := mul_nonneg hy hl.1
      have h2 : 0 ≤ y * l.rate / 100 := by positivity
      linarith [ht]
    · rename_i hfit
      have hy' : 0 ≤ y - l.income / 12 := by
        have : l.income < y * 12 := lt_of_not_le hfit
        linarith
      have hstep : 0 ≤ l.income / 12 * l.rate / 100 := by
        have := mul_nonneg (by linarith [hl.2] : (0:ℚ) ≤ l.income / 12) hl.1
        positivity
      have := ih (y - l.income / 12) (acc + l.income / 12 * l.rate / 100) t r hy'
        (fun x hx => hnn x (by simp [hx])) h
      linarith

lemma tax_walk_mono :
    ∀ (L : List TaxLevel) (y1 y2 acc : ℚ), 0 ≤ y1 → y1 ≤ y2 →
      (∀ l ∈ L, 0 ≤ l.rate ∧ 0 ≤ l.income) →
      ∀ t2 r2, tax_walk y2 acc L = some (t2, r2) →
        ∃ t1 r1, tax_walk y1 acc L = some (t1, r1) ∧ t1 ≤ t2 := by
  intro L
  induction L with
  | nil => intro y1 y2 acc _ _ _ t2 r2 h; simp [tax_walk] at h
  | cons l ls ih =>
    intro y1 y2 acc hy1 h12 hnn t2 r2 h
    have hl := hnn l (by simp)
    have hnn' : ∀ x ∈ ls, 0 ≤ x.rate ∧ 0 ≤ x.income := fun x hx => hnn x (by simp [hx])
    simp only [tax_walk] at h ⊢
    by_cases hfit2 : y2 * 12 ≤ l.income
    · -- the larger income fits this bracket, so the smaller does too
      rw [if_pos hfit2] at h
      simp only [Option.some.injEq, Prod.mk.injEq] at h
      obtain ⟨ht2, _⟩ := h
      have hfit1 : y1 * 12 ≤ l.income := le_trans (by linarith) hfit2
      refine ⟨acc + y1 * l.rate / 100, l.rate, by rw [if_pos hfit1], ?_⟩
      have : y1 * l.rate ≤ y2 * l.rate := mul_le_mul_of_nonneg_right h12 hl.1
      rw [← ht2]
      linarith
    · rw [if_neg hfit2] at h
      have hy2' : 0 ≤ y2 - l.income / 12 := by
        have : l.income < y2 * 12 := lt_of_not_le hfit2
        linarith
      by_cases hfit1 : y1 * 12 ≤ l.income
      · -- smaller income ends here; larger continues deeper and pays at least
        -- the full span of this bracket
        have hacc := tax_walk_ge_acc ls (y2 - l.income / 12)
          (acc + l.income / 12 * l.rate / 100) t2 r2 hy2' hnn' h
        refine ⟨acc + y1 * l.rate / 100, l.rate, by rw [if_pos hfit1], ?_⟩
        have : y1 * l.rate ≤ l.income / 12 * l.rate := by
          have : y1 ≤ l.income / 12 := by linarith
          exact mul_le_mul_of_nonneg_right this hl.1
        linarith
      · rw [if_neg hfit1]
        have hy1' : 0 ≤ y1 - l.income / 12 := by
          have : l.income < y1 * 12 := lt_of_not_le hfit1
          linarith
        exact ih (y1 - l.income / 12) (y2 - l.income / 12)
          (acc + l.income / 12 * l.rate / 100) hy1' (by linarith) hnn' t2 r2 h

lemma deduct_nonneg (y sd : ℚ) : 0 ≤ deduct y sd := by
  unfold deduct
  split
  · rename_i h
    linarith
  · exact le_refl 0

lemma deduct_mono (y1 y2 sd : ℚ) (h : y1 ≤ y2) : deduct y1 sd ≤ deduct y2 sd := by
  unfold deduct
  split <;> split
  · linarith
  · rename_i h1 h2
    exact absurd (lt_of_lt_of_le h1 h) h2
  · rename_i h1 h2
    linarith
  · exact le_refl 0

lemma deduct_le (y sd : ℚ) (hy : 0 ≤ y) (hsd : 0 ≤ sd) : deduct y sd ≤ y := by
  unfold deduct
  split
  · have : 0 ≤ sd / 12 := by positivity
    linarith
  · exact hy

lemma tax_walk_covers :
    ∀ (L : List TaxLevel) (y acc : ℚ), L ≠ [] → y * 12 ≤ sumCeil L →
      (tax_walk y acc L).isSome := by
  intro L
  induction L with
  | nil => intro y acc h _; exact absurd rfl h
  | cons l ls ih =>
    intro y acc _ hcov
    simp only [tax_walk]
    by_cases hfit : y * 12 ≤ l.income
    · rw [if_pos hfit]; rfl
    · rw [if_neg hfit]
      cases ls with
      | nil =>
        exfalso
        apply hfit
        simpa [sumCeil] using hcov
      | cons x xs =>
        apply ih _ _ (by simp)
        have hsum : sumCeil (l :: x :: xs) = l.income + sumCeil (x :: xs) := by
          simp [sumCeil]
        rw [hsum] at hcov
        linarith

/-!  ## Claim C4: tax monotonicity  -/

/-- C4.  For every valid tax schedule (brackets sorted ascending by ceiling,
all rates non-negative — and, per the data-model invariant that schedules
start from a near-zero first bracket, non-negative ceilings) and every
standard deduction >= 0, the total tax returned by `get_taxes` is
monotonically non-decreasing in the monthly income: whenever the larger
income is covered by the schedule, the smaller one is too, and its total
tax is no larger. -/
theorem get_taxes_monotone (income1 income2 standard_deduction : ℚ)
    (levels : List TaxLevel)
    (hsorted : levels.Pairwise fun a b => a.income ≤ b.income)
    (hvalid : ∀ l ∈ levels, 0 ≤ l.rate ∧ 0 ≤ l.income)
    (hsd : 0 ≤ standard_deduction)
    (h12 : income1 ≤ income2) :
    ∀ t2 r2, get_taxes income2 standard_deduction levels = some (t2, r2) →
      ∃ t1 r1, get_taxes income1 standard_deduction levels = some (t1, r1) ∧
        t1 ≤ t2 := by
  intro t2 r2 h
  exact tax_walk_mono levels (deduct income1 standard_deduction)
    (deduct income2 standard_deduction) 0
    (deduct_nonneg income1 standard_deduction)
    (deduct_mono income1 income2 standard_deduction h12)
    hvalid t2 r2 h

/-- A two-bracket demonstration schedule: 10% up to 2400 annually, 20% up to
999999 annually. -/
def demoLevels : List TaxLevel := [⟨2400, 10⟩, ⟨999999, 20⟩]

/-- Witness for C4: at monthly incomes 100 <= 300 under `demoLevels`, the
hypotheses hold and the tax at 100 is at most the tax at 300 (which is 40). -/
theorem get_taxes_monotone_witness :
    (demoLevels.Pairwise fun a b => a.income ≤ b.income) ∧
      (∀ l ∈ demoLevels, 0 ≤ l.rate ∧ 0 ≤ l.income) ∧
      (0 ≤ (0 : ℚ)) ∧ ((100 : ℚ) ≤ 300) ∧
      get_taxes 300 0 demoLevels = some (40, 20) ∧
      ∃ t1 r1, get_taxes 100 0 demoLevels = some (t1, r1) ∧ t1 ≤ 40 := by
  refine ⟨?_, ?_, le_refl 0, by norm_num, ?_, ?_⟩
  · with_unfolding_all decide
  · with_unfolding_all decide
  · with_unfolding_all decide
  · exact get_taxes_monotone 100 300 0 demoLevels
      (by with_unfolding_all decide) (by with_unfolding_all decide)
      (le_refl 0) (by norm_num) 40 20 (by with_unfolding_all decide)

/-!  ## Claim C8: the panic branch is unreachable when the schedule covers
the income  -/

/-- C8.  For every monthly income >= 0, standard deduction >= 0, and sorted
non-empty bracket schedule whose brackets cover the (annualized) income —
the rendering of "the last bracket's ceiling is unbounded", which the code
realizes with an `f32::MAX` ceiling — `get_taxes` returns normally: the
fatal `Tax rate too high!` branch is not reached. -/
theorem get_taxes_no_panic (income standard_deduction : ℚ)
    (levels : List TaxLevel)
    (hsorted : levels.Pairwise fun a b => a.income ≤ b.income)
    (hinc : 0 ≤ income)
    (hsd : 0 ≤ standard_deduction)
    (hne : levels ≠ [])
    (hcov : income * 12 ≤ sumCeil levels) :
    (get_taxes income standard_deduction levels).isSome := by
  apply tax_walk_covers levels _ 0 hne
  have h1 : deduct income standard_deduction ≤ income :=
    deduct_le income standard_deduction hinc hsd
  linarith

/-- Witness for C8: monthly income 100 under `demoLevels` is covered, and
`get_taxes` indeed returns a value. -/
theorem get_taxes_no_panic_witness :
    (demoLevels.Pairwise fun a b => a.income ≤ b.income) ∧
      (0 ≤ (100 : ℚ)) ∧ (0 ≤ (0 : ℚ)) ∧ demoLevels ≠ [] ∧
      ((100 : ℚ) * 12 ≤ sumCeil demoLevels) ∧
      (get_taxes 100 0 demoLevels).isSome := by
  refine ⟨by with_unfolding_all decide, by norm_num, le_refl 0, by simp [demoLevels],
    by with_unfolding_all decide, ?_⟩
  exact get_taxes_no_panic 100 0 demoLevels (by with_unfolding_all decide)
    (by norm_num) (le_refl 0) (by simp [demoLevels]) (by with_unfolding_all decide)

/-!  ## Claim C5: social-security interpolation  -/

/-- C5.  The social-security benefit as a function of claiming age and the
three tiers: 0 below 62, `early` at 62, `full` at 67, `delayed` at or above
70, linear interpolation inside [62, 67) and [67, 70); and the concrete
values the specification lists for early=1000, full=2000, delayed=4000. -/
theorem social_security_interpolation :
    (∀ e f d : ℚ,
      get_social_security_monthly_income 61 e f d = 0 ∧
      get_social_security_monthly_income 62 e f d = e ∧
      get_social_security_monthly_income 67 e f d = f ∧
      get_social_security_monthly_income 70 e f d = d ∧
      get_social_security_monthly_income 71 e f d = d) ∧
    get_social_security_monthly_income 63 1000 2000 4000 = 1200 ∧
    get_social_security_monthly_income 68 1000 2000 4000 = 2000 + 2000 / 3 ∧
    (∀ (a : Nat) (e f d : ℚ), a < 62 →
      get_social_security_monthly_income a e f d = 0) ∧
    (∀ (a : Nat) (e f d : ℚ), 70 ≤ a →
      get_social_security_monthly_income a e f d = d) ∧
    (∀ (a : Nat) (e f d : ℚ), 67 ≤ a → a < 70 →
      get_social_security_monthly_income a e f d =
        f + (d - f) * ((a - 67 : Nat) : ℚ) / 3) ∧
    (∀ (a : Nat) (e f d : ℚ), 62 ≤ a → a < 67 →
      get_social_security_monthly_income a e f d =
        e + (f - e) * ((a - 62 : Nat) : ℚ) / 5) := by
  refine ⟨?_, ?_, ?_, ?_, ?_, ?_, ?_⟩
  · intro e f d
    refine ⟨?_, ?_, ?_, ?_, ?_⟩ <;> norm_num [get_social_security_monthly_income]
  · norm_num [get_social_security_monthly_income]
  · norm_num [get_social_security_monthly_income]
  · intro a e f d h
    simp only [get_social_security_monthly_income]
    rw [if_neg (by omega), if_pos (by omega)]
  · intro a e f d h
    simp only [get_social_security_monthly_income]
    rw [if_pos (by omega)]
  · intro a e f d h1 h2
    simp only [get_social_security_monthly_income]
    rw [if_neg (by omega), if_neg (by omega), if_pos (by omega)]
    norm_num
  · intro a e f d h1 h2
    simp only [get_social_security_monthly_income]
    rw [if_neg (by omega), if_neg (by omega), if_neg (by omega)]
    norm_num

/-- Witness for C5 (for the conditional interpolation clauses): the age-68
point of the upper band. -/
theorem social_security_interpolation_witness :
    ((67 : Nat) ≤ 68) ∧ ((68 : Nat) < 70) ∧
      get_social_security_monthly_income 68 1 2 3 =
        2 + (3 - 2) * ((68 - 67 : Nat) : ℚ) / 3 := by
  exact ⟨by omega, by omega,
    social_security_interpolation.2.2.2.2.2.1 68 1 2 3 (by omega) (by omega)⟩

/-!  ## Claim C1: which allocation `grow` uses  -/

/-- The identity function standing in for `get_monthly_rate` in the C1
evaluation (any rate function with `mr 0 = 0` and `mr (12/100) ≠ 0` shows
the same asymmetry). -/
def mrId : ℚ → ℚ := fun x => x

/-- A portfolio whose pre-retirement allocation is 100% US equities and
whose post-retirement allocation is 100% bonds, with balance 100. -/
def bugPortfolio : Portfolio :=
  { balance := 100
    pre_retirement_allocation := ⟨100, 0, 0⟩
    post_retirement_allocation := ⟨0, 0, 100⟩
    us_equity_expected_returns := 0
    us_equity_standard_deviation := 0
    international_equity_expected_returns := 0
    international_equity_standard_deviation := 0
    bonds_expected_returns := 0
    bonds_standard_deviation := 0
    expected_inflation := 0 }

/-- C1.  Evaluation showing `Portfolio::grow` applies the PRE-retirement
allocation when the post-retirement flag is TRUE (and vice versa), i.e. the
selection in portfolio.rs line 63 is swapped: growing `bugPortfolio` with a
12% US-equity return and zero bond return yields balance 112 when
`use_post_retirement = true` (the 100%-equity PRE-retirement sleeve grew)
and 100 when `use_post_retirement = false` (the 100%-bond POST-retirement
sleeve, at zero bond return), contradicting the claim that the phase picks
the matching allocation. -/
theorem grow_uses_swapped_allocation :
    (Portfolio.grow mrId bugPortfolio 12 0 0 true).1.balance = 112 ∧
      (Portfolio.grow mrId bugPortfolio 12 0 0 false).1.balance = 100 ∧
      (Portfolio.grow mrId bugPortfolio 12 0 0 true).1.balance ≠
        (Portfolio.grow mrId bugPortfolio 12 0 0 false).1.balance := by
  refine ⟨?_, ?_, ?_⟩ <;> with_unfolding_all decide

/-!  ## Claim C10: income-onset boundary semantics  -/

lemma Date.lt_irrefl (d : Date) : Date.lt d d = false := by
  simp [Date.lt]

lemma Date.le_refl (d : Date) : Date.le d d = true := by
  simp [Date.le]

/-- C10.  The income-onset boundaries differ across income types, exactly as
in simulate.rs: social security is added only when the current date is
STRICTLY after the claim date — in particular it is excluded on the claim
date itself — while pension income and other retirement income are added
already when the current date EQUALS the pension claim date resp. the
household retirement date (greater-or-equal comparisons). -/
theorem income_onset_boundaries :
    (∀ (d : Date) (ri : RetireeInfo),
      social_security_income_total d 1 [ri] =
        if Date.lt ri.social_security_date d then ri.social_security_income else 0) ∧
    (∀ ri : RetireeInfo,
      social_security_income_total ri.social_security_date 1 [ri] = 0) ∧
    (∀ (d : Date) (r : Retiree),
      pension_income_total d [r] =
        if Date.le (add_years r.date_of_birth r.pension_age) d then
          r.pension_monthly_income
        else 0) ∧
    (∀ r : Retiree,
      pension_income_total (add_years r.date_of_birth r.pension_age) [r] =
        r.pension_monthly_income) ∧
    (∀ (d rd : Date) (r : Retiree),
      other_income_total d rd [r] =
        if Date.le rd d then r.other_monthly_retirement_income else 0) ∧
    (∀ (rd : Date) (r : Retiree),
      other_income_total rd rd [r] = r.other_monthly_retirement_income) := by
  have hss : ∀ (d : Date) (ri : RetireeInfo),
      social_security_income_total d 1 [ri] =
        if Date.lt ri.social_security_date d then ri.social_security_income else 0 := by
    intro d ri
    simp only [social_security_income_total, List.range_succ, List.range_zero,
      List.nil_append, List.foldl_cons, List.foldl_nil, List.getD_cons_zero]
    split <;> simp_all
  have hp : ∀ (d : Date) (r : Retiree),
      pension_income_total d [r] =
        if Date.le (add_years r.date_of_birth r.pension_age) d then
          r.pension_monthly_income
        else 0 := by
    intro d r
    simp only [pension_income_total, List.foldl_cons, List.foldl_nil]
    split <;> simp
  have ho : ∀ (d rd : Date) (r : Retiree),
      other_income_total d rd [r] =
        if Date.le rd d then r.other_monthly_retirement_income else 0 := by
    intro d rd r
    simp only [other_income_total, List.foldl_cons, List.foldl_nil]
    split <;> simp
  refine ⟨hss, ?_, hp, ?_, ho, ?_⟩
  · intro ri
    rw [hss, if_neg]
    simp [Date.lt_irrefl]
  · intro r
    rw [hp, if_pos]
    simp [Date.le_refl]
  · intro rd r
    rw [ho, if_pos]
    simp [Date.le_refl]

/-!  ## Claim C2: scan extrema  -/

/-- Running minimum over only the successful scenarios of a generic
(`scan.rs`) scan — the quantity the claim says `min_balance` equals. -/
def minOverSuccessfulS (init : ℚ) (scs : List Scenario) : ℚ :=
  scs.foldl (fun m sc => if 0 < lastBalance sc then min m (lastBalance sc) else m) init

lemma add_scenario_min (acc : ScanResults) (sc : Scenario) (idx : Nat) :
    (add_scenario_to_results acc sc idx).min_balance =
      min acc.min_balance (lastBalance sc) := by
  simp only [add_scenario_to_results, ScanResults.add_sorting_info]
  split <;> rfl

lemma add_scenario_max (acc : ScanResults) (sc : Scenario) (idx : Nat) :
    (add_scenario_to_results acc sc idx).max_balance =
      max acc.max_balance (lastBalance sc) := by
  simp only [add_scenario_to_results, ScanResults.add_sorting_info]
  split <;> rfl

lemma run_scan_aggregate_go_minmax :
    ∀ (scs : List Scenario) (acc : ScanResults) (idx : Nat),
      (run_scan_aggregate_go acc idx scs).min_balance = minOverAll acc.min_balance scs ∧
      (run_scan_aggregate_go acc idx scs).max_balance = maxOverAll acc.max_balance scs := by
  intro scs
  induction scs with
  | nil => intro acc idx; simp [run_scan_aggregate_go, minOverAll, maxOverAll]
  | cons sc rest ih =>
    intro acc idx
    simp only [run_scan_aggregate_go]
    obtain ⟨ih1, ih2⟩ := ih (add_scenario_to_results acc sc idx) (idx + 1)
    constructor
    · rw [ih1, add_scenario_min]
      simp [minOverAll]
    · rw [ih2, add_scenario_max]
      simp [maxOverAll]

lemma sort_results_preserves (r : ScanResults) :
    (ScanResults.sort_results r).min_balance = r.min_balance ∧
      (ScanResults.sort_results r).max_balance = r.max_balance ∧
      (ScanResults.sort_results r).scenario_results = r.scenario_results := by
  exact ⟨rfl, rfl, rfl⟩

/-- `Option`-valued `map` over a list, `none` as soon as `f` fails; the
shape of a loop of fallible calls aborting the scan on the first error. -/
def mapOpt (f : α → Option β) : List α → Option (List β)
  | [] => some []
  | a :: as =>
    match f a, mapOpt f as with
    | some b, some bs => some (b :: bs)
    | _, _ => none

lemma addHistoricalScenario_proj (acc : HistoricalScanResults × List FailedInfo)
    (sc : HistoricalScenario) (i : Nat) :
    (addHistoricalScenario acc sc i).1.scenario_results =
        acc.1.scenario_results ++ [sc] ∧
      (addHistoricalScenario acc sc i).1.num_simulations =
        acc.1.num_simulations + 1 ∧
      (addHistoricalScenario acc sc i).1.min_balance =
        (if 0 < lastBalanceH sc then min acc.1.min_balance (lastBalanceH sc)
         else acc.1.min_balance) ∧
      (addHistoricalScenario acc sc i).1.max_balance =
        (if 0 < lastBalanceH sc then max acc.1.max_balance (lastBalanceH sc)
         else acc.1.max_balance) := by
  simp only [addHistoricalScenario]
  split <;> rename_i h <;> simp [h]

lemma scanLoop_spec (mr : ℚ → ℚ) (records : List HistoricalReturnsOneYear)
    (fuel : Nat) (input : Input) (d0 : Date) :
    ∀ (idxs : List Nat) (acc : HistoricalScanResults × List FailedInfo) out,
      scanLoop mr records fuel input d0 idxs acc = some out →
      ∃ scs, mapOpt (fun i => run_scenario mr records fuel i input d0) idxs = some scs ∧
        out.1.scenario_results = acc.1.scenario_results ++ scs ∧
        out.1.num_simulations = acc.1.num_simulations + scs.length ∧
        out.1.min_balance = minOverSuccessful acc.1.min_balance scs ∧
        out.1.max_balance = maxOverSuccessful acc.1.max_balance scs := by
  intro idxs
  induction idxs with
  | nil =>
    intro acc out h
    simp only [scanLoop, Option.some.injEq] at h
    subst h
    exact ⟨[], rfl, by simp, by simp, by simp [minOverSuccessful],
      by simp [maxOverSuccessful]⟩
  | cons i rest ih =>
    intro acc out h
    simp only [scanLoop] at h
    cases e : run_scenario mr records fuel i input d0 with
    | none => rw [e] at h; exact absurd h (by simp)
    | some sc =>
      rw [e] at h
      obtain ⟨scs', hmap, hres, hnum, hmin, hmax⟩ :=
        ih (addHistoricalScenario acc sc i) out h
      obtain ⟨hp1, hp2, hp3, hp4⟩ := addHistoricalScenario_proj acc sc i
      refine ⟨sc :: scs', ?_, ?_, ?_, ?_, ?_⟩
      · simp only [mapOpt]
        rw [e, hmap]
      · rw [hres, hp1]
        simp
      · rw [hnum, hp2]
        simp only [List.length_cons]
        omega
      · rw [hmin, hp3]
        simp [minOverSuccessful]
      · rw [hmax, hp4]
        simp [maxOverSuccessful]

/-- C2 (amended).  The two scan aggregations differ: (1) the historical
scan's `min_balance`/`max_balance` are the extrema over only the SUCCESSFUL
scenarios' final balances (failed scenarios are excluded), running from the
initial `f32::MAX` resp. `0`; (2) the generic `ScanResults` fold of
`scan::add_scenario_to_results` — the Monte Carlo path — includes EVERY
scenario's final balance in the extrema, successful or not. -/
theorem scan_extrema_by_success :
    (∀ (mr : ℚ → ℚ) (records : List HistoricalReturnsOneYear) (fuel : Nat)
        (input : Input) (d0 : Date) (res : HistoricalScanResults),
      run_historical_scan mr records fuel input d0 = some res →
        res.min_balance = minOverSuccessful f32Max res.scenario_results ∧
        res.max_balance = maxOverSuccessful 0 res.scenario_results) ∧
    (∀ scenarios : List Scenario,
      (run_scan_aggregate scenarios).min_balance = minOverAll f32Max scenarios ∧
      (run_scan_aggregate scenarios).max_balance = maxOverAll 0 scenarios) := by
  constructor
  · intro mr records fuel input d0 res h
    simp only [run_historical_scan] at h
    cases e : scanLoop mr records fuel input d0 (List.range records.length)
        (histInit, []) with
    | none => rw [e] at h; exact absurd h (by simp)
    | some out =>
      rw [e] at h
      simp only [Option.some.injEq] at h
      obtain ⟨scs, _, hres, _, hmin, hmax⟩ :=
        scanLoop_spec mr records fuel input d0 _ _ _ e
      have hresc : res.scenario_results = scs := by
        rw [← h]
        simpa [histInit] using hres
      have hminv : res.min_balance = out.1.min_balance := by rw [← h]
      have hmaxv : res.max_balance = out.1.max_balance := by rw [← h]
      rw [hminv, hmaxv, hresc, hmin, hmax]
      exact ⟨rfl, rfl⟩
  · intro scenarios
    obtain ⟨h1, h2⟩ := run_scan_aggregate_go_minmax scenarios ScanResults.new 0
    exact ⟨h1, h2⟩

/-- A snapshot carrying final balance 0 (a depleted scenario's last month). -/
def snapZero : MonthlySnapshot :=
  { date := ⟨2000, 1, 1⟩, balance := 0, expenses := 0, income := 0,
    tax_rate := 0, taxes := 0, withdrawal_rate := 0, annualized_return := 0 }

/-- A snapshot carrying final balance 5 (a successful scenario's last month). -/
def snapFive : MonthlySnapshot :=
  { date := ⟨2000, 1, 1⟩, balance := 5, expenses := 0, income := 0,
    tax_rate := 0, taxes := 0, withdrawal_rate := 0, annualized_return := 0 }

/-- A failed scenario: its one snapshot ends at balance 0. -/
def scFailW : Scenario :=
  { simulation_results :=
      { retirement_date := ⟨2000, 1, 1⟩, retirement_age := 65, retirees := [],
        monthly_snapshot := [snapZero], average_return := 0 }
    starting_year := 1970, ending_year := 1970 }

/-- A successful scenario: its one snapshot ends at balance 5. -/
def scOkW : Scenario :=
  { simulation_results :=
      { retirement_date := ⟨2000, 1, 1⟩, retirement_age := 65, retirees := [],
        monthly_snapshot := [snapFive], average_return := 0 }
    starting_year := 1971, ending_year := 1971 }

/-- Counterexample to C2 as stated: a completed scan built by
`scan::add_scenario_to_results` (the Monte Carlo aggregation) from one
failed scenario (final balance 0) and one successful scenario (final
balance 5) reports `min_balance = 0`, whereas the minimum over only the
successful scenarios is 5 — the failed scenario's final balance entered
the extremum. -/
theorem scan_extrema_counterexample :
    (run_scan_aggregate [scFailW, scOkW]).min_balance = 0 ∧
      minOverSuccessfulS f32Max
        (run_scan_aggregate [scFailW, scOkW]).scenario_results = 5 ∧
      (run_scan_aggregate [scFailW, scOkW]).min_balance ≠
        minOverSuccessfulS f32Max
          (run_scan_aggregate [scFailW, scOkW]).scenario_results := by
  refine ⟨?_, ?_, ?_⟩ <;> with_unfolding_all decide

/-!  ## Claims C3 and C9: the step's finished signal and the dead frame  -/

/-- C3.  `run_simulation_one_month` reports finished exactly when either
everyone is already past their life expectancy at entry (in which case the
state is returned untouched), or the portfolio balance at the end of the
executed month is exactly zero; in every other case it reports `false`. -/
theorem step_finished_iff (mr : ℚ → ℚ) (s : Simulation) (us_r intl_r bonds_r : ℚ)
    (fin : Bool) (s' : Simulation)
    (h : run_simulation_one_month mr s us_r intl_r bonds_r = some (fin, s')) :
    fin = true ↔
      (is_everyone_dead s.current_date_ s.input_ = true ∨
        s'.portfolio_.balance = 0) := by
  by_cases hd : is_everyone_dead s.current_date_ s.input_ = true
  · rw [run_simulation_one_month, if_pos hd] at h
    simp only [Option.some.injEq, Prod.mk.injEq] at h
    obtain ⟨hfin, _⟩ := h
    simp [← hfin, hd]
  · rw [run_simulation_one_month, if_neg hd] at h
    cases e : get_taxes (month_withdrawals s + month_taxable_income s)
        s.input_.tax_rates.standard_deduction s.tax_rates_ with
    | none => rw [e] at h; exact absurd h (by simp)
    | some pr =>
      obtain ⟨taxes0, tax_rate⟩ := pr
      rw [e] at h
      simp only [Option.some.injEq] at h
      have hfin : fin = (month_finish mr s us_r intl_r bonds_r taxes0 tax_rate).1 :=
        (congrArg Prod.fst h).symm
      have hs : s' = (month_finish mr s us_r intl_r bonds_r taxes0 tax_rate).2 :=
        (congrArg Prod.snd h).symm
      have hkey : (month_finish mr s us_r intl_r bonds_r taxes0 tax_rate).1 =
          decide ((month_finish mr s us_r intl_r bonds_r taxes0 tax_rate).2.portfolio_.balance = 0) :=
        rfl
      rw [hfin, hs, hkey]
      simp [hd]

/-- C9.  When every retiree is already past their life expectancy at entry,
the monthly step returns `Ok(true)` with the ENTIRE state unchanged — in
particular the portfolio balance, the snapshot sequence, the current date,
the running sum of returns and the average return are untouched. -/
theorem step_dead_no_mutation (mr : ℚ → ℚ) (s : Simulation)
    (us_r intl_r bonds_r : ℚ)
    (h : is_everyone_dead s.current_date_ s.input_ = true) :
    run_simulation_one_month mr s us_r intl_r bonds_r = some (true, s) := by
  rw [run_simulation_one_month, if_pos h]

/-- A retiree long past their life expectancy at the witness date. -/
def deadRetiree : Retiree :=
  { name := "a", date_of_birth := ⟨1900, 1, 1⟩, retirement_age := 65,
    life_expectency := 50, salary_annual := 0, retirement_contribution_percent := 0,
    social_security_age := 67, pension_age := 65, pension_monthly_income := 0,
    other_monthly_retirement_income := 0, social_security_amount_early := 0,
    social_security_amount_full := 0, social_security_amount_delayed := 0 }

/-- A portfolio fully in US equities in both phases, balance 100. -/
def wPortfolio : Portfolio :=
  { balance := 100
    pre_retirement_allocation := ⟨100, 0, 0⟩
    post_retirement_allocation := ⟨100, 0, 0⟩
    us_equity_expected_returns := 0
    us_equity_standard_deviation := 0
    international_equity_expected_returns := 0
    international_equity_standard_deviation := 0
    bonds_expected_returns := 0
    bonds_standard_deviation := 0
    expected_inflation := 0 }

/-- A household whose single retiree is already past their life expectancy
in the year 2000. -/
def deadInput : Input :=
  { retirees := [deadRetiree], portfolio := wPortfolio, expenses := ⟨0⟩,
    tax_rates := { standard_deduction := 0, tax_levels := [⟨0, 0⟩, ⟨f32Max, 10⟩] } }

/-- A concrete engine state at June 2000, where `deadRetiree` (born 1900,
life expectancy 50) is long dead. -/
def sDead : Simulation :=
  { simulation_results_ :=
      { retirement_date := ⟨1965, 1, 1⟩, retirement_age := 65,
        retirees := [⟨"a", ⟨1967, 1, 1⟩, ⟨1900, 1, 1⟩, 0⟩],
        monthly_snapshot := [], average_return := 0 }
    input_ := deadInput
    current_date_ := ⟨2000, 6, 1⟩
    portfolio_ := wPortfolio
    expenses_ := 0
    tax_rates_ := [⟨0, 0⟩, ⟨f32Max, 10⟩]
    sum_of_returns_ := 0 }

/-- Witness for C3: at the concrete dead state the step returns
`some (true, sDead)` and the characterization holds. -/
theorem step_finished_iff_witness :
    run_simulation_one_month mrId sDead 0 0 0 = some (true, sDead) ∧
      (true = true ↔
        (is_everyone_dead sDead.current_date_ sDead.input_ = true ∨
          sDead.portfolio_.balance = 0)) := by
  refine ⟨by decide, ?_⟩
  exact step_finished_iff mrId sDead 0 0 0 true sDead (by decide)

/-- Witness for C9: the dead condition holds at `sDead` and the step indeed
returns the state unchanged. -/
theorem step_dead_no_mutation_witness :
    is_everyone_dead sDead.current_date_ sDead.input_ = true ∧
      run_simulation_one_month mrId sDead 0 0 0 = some (true, sDead) := by
  refine ⟨by decide, ?_⟩
  exact step_dead_no_mutation mrId sDead 0 0 0 (by decide)

/-!  ## Claim C7: historical scan structure  -/

lemma mapOpt_length {α β : Type} (f : α → Option β) :
    ∀ (l : List α) (res : List β), mapOpt f l = some res → res.length = l.length := by
  intro l
  induction l with
  | nil =>
    intro res h
    simp only [mapOpt, Option.some.injEq] at h
    subst h
    rfl
  | cons a as ih =>
    intro res h
    simp only [mapOpt] at h
    cases e1 : f a with
    | none => rw [e1] at h; exact absurd h (by simp)
    | some b =>
      rw [e1] at h
      cases e2 : mapOpt f as with
      | none => rw [e2] at h; exact absurd h (by simp)
      | some bs =>
        rw [e2] at h
        simp only [Option.some.injEq] at h
        subst h
        simp [ih bs e2]

lemma mapOpt_get {α β : Type} (f : α → Option β) :
    ∀ (l : List α) (res : List β), mapOpt f l = some res →
      ∀ (k : Nat) (hk : k < l.length) (hk2 : k < res.length),
        f (l.get ⟨k, hk⟩) = some (res.get ⟨k, hk2⟩) := by
  intro l
  induction l with
  | nil => intro res h k hk hk2; exact absurd hk (by simp)
  | cons a as ih =>
    intro res h k hk hk2
    simp only [mapOpt] at h
    cases e1 : f a with
    | none => rw [e1] at h; exact absurd h (by simp)
    | some b =>
      rw [e1] at h
      cases e2 : mapOpt f as with
      | none => rw [e2] at h; exact absurd h (by simp)
      | some bs =>
        rw [e2] at h
        simp only [Option.some.injEq] at h
        subst h
        cases k with
        | zero => simpa using e1
        | succ k' =>
          exact ih bs e2 k' (by simpa using hk) (by simpa using hk2)

lemma run_historical_scan_inv (mr : ℚ → ℚ) (records : List HistoricalReturnsOneYear)
    (fuel : Nat) (input : Input) (d0 : Date) (res : HistoricalScanResults)
    (h : run_historical_scan mr records fuel input d0 = some res) :
    ∃ scs, mapOpt (fun i => run_scenario mr records fuel i input d0)
        (List.range records.length) = some scs ∧
      res.scenario_results = scs ∧ res.num_simulations = scs.length := by
  simp only [run_historical_scan] at h
  cases e : scanLoop mr records fuel input d0 (List.range records.length)
      (histInit, []) with
  | none => rw [e] at h; exact absurd h (by simp)
  | some out =>
    rw [e] at h
    simp only [Option.some.injEq] at h
    obtain ⟨scs, hmap, hres, hnum, _, _⟩ :=
      scanLoop_spec mr records fuel input d0 _ _ _ e
    refine ⟨scs, hmap, ?_, ?_⟩
    · rw [← h]; simpa [histInit] using hres
    · rw [← h]; simpa [histInit] using hnum

/-- C7.  Structure of the historical scan: (1) a completed scan over N
records runs exactly N scenarios — one per starting index, the k-th
scenario being exactly the output of `run_scenario` started at index k;
(2) one outer iteration of the scenario loop feeds one record's return
triple to up to 12 consecutive months and then advances the index by one
MODULO the dataset length; (3) in particular a scenario at the last index
N-1 that survives its 12 months continues at index 0, consuming the first
record's returns. -/
theorem historical_scan_structure :
    (∀ (mr : ℚ → ℚ) (records : List HistoricalReturnsOneYear) (fuel : Nat)
        (input : Input) (d0 : Date) (res : HistoricalScanResults),
      run_historical_scan mr records fuel input d0 = some res →
        res.scenario_results.length = records.length ∧
        res.num_simulations = records.length ∧
        ∀ (k : Nat) (hk2 : k < res.scenario_results.length),
          run_scenario mr records fuel k input d0 =
            some (res.scenario_results.get ⟨k, hk2⟩)) ∧
    (∀ (mr : ℚ → ℚ) (records : List HistoricalReturnsOneYear) (fuel2 : Nat)
        (s : Simulation) (i : Nat), i < records.length →
      runScenarioLoop mr records (fuel2 + 1) s i =
        match stepMonths mr s (records.getD i default) 12 with
        | none => none
        | some (true, s') => some (s', i)
        | some (false, s') =>
            runScenarioLoop mr records fuel2 s' ((i + 1) % records.length)) ∧
    (∀ (mr : ℚ → ℚ) (records : List HistoricalReturnsOneYear) (fuel2 : Nat)
        (s : Simulation), records ≠ [] →
      runScenarioLoop mr records (fuel2 + 1) s (records.length - 1) =
        match stepMonths mr s (records.getD (records.length - 1) default) 12 with
        | none => none
        | some (true, s') => some (s', records.length - 1)
        | some (false, s') => runScenarioLoop mr records fuel2 s' 0) := by
  have hB : ∀ (mr : ℚ → ℚ) (records : List HistoricalReturnsOneYear) (fuel2 : Nat)
      (s : Simulation) (i : Nat), i < records.length →
      runScenarioLoop mr records (fuel2 + 1) s i =
        match stepMonths mr s (records.getD i default) 12 with
        | none => none
        | some (true, s') => some (s', i)
        | some (false, s') =>
            runScenarioLoop mr records fuel2 s' ((i + 1) % records.length) := by
    intro mr records fuel2 s i hi
    rw [runScenarioLoop]
    cases e : stepMonths mr s (records.getD i default) 12 with
    | none => rfl
    | some pr =>
      obtain ⟨fin, s'⟩ := pr
      cases fin with
      | true => rfl
      | false =>
        simp only []
        have hidx : (if records.length ≤ i + 1 then 0 else i + 1) =
            (i + 1) % records.length := by
          rcases Nat.lt_or_ge (i + 1) records.length with hlt | hge
          · rw [if_neg (by omega), Nat.mod_eq_of_lt hlt]
          · have : i + 1 = records.length := by omega
            rw [if_pos (by omega), this, Nat.mod_self]
        rw [hidx]
  refine ⟨?_, hB, ?_⟩
  · intro mr records fuel input d0 res h
    obtain ⟨scs, hmap, hres, hnum⟩ :=
      run_historical_scan_inv mr records fuel input d0 res h
    subst hres
    have hlen : res.scenario_results.length = records.length :=
      (mapOpt_length _ (List.range records.length) _ hmap).trans (by simp)
    refine ⟨hlen, by rw [hnum, hlen], ?_⟩
    intro k hk2
    have hk : k < (List.range records.length).length := by
      simpa using hlen ▸ hk2
    have hget := mapOpt_get _ (List.range records.length) _ hmap k hk hk2
    simp only [List.get_eq_getElem, List.getElem_range] at hget
    simpa using hget
  · intro mr records fuel2 s hne
    have hlen : 0 < records.length := List.length_pos.mpr hne
    have := hB mr records fuel2 s (records.length - 1) (by omega)
    rw [this]
    have : (records.length - 1 + 1) % records.length = 0 := by
      have : records.length - 1 + 1 = records.length := by omega
      rw [this, Nat.mod_self]
    rw [this]

/-- A retiree (born December 1900, life expectancy 99) who dies one month
into a scenario started in December 2000, with no income of any kind. -/
def wRetiree : Retiree :=
  { name := "a", date_of_birth := ⟨1900, 12, 20⟩, retirement_age := 65,
    life_expectency := 99, salary_annual := 0, retirement_contribution_percent := 0,
    social_security_age := 67, pension_age := 65, pension_monthly_income := 0,
    other_monthly_retirement_income := 0, social_security_amount_early := 0,
    social_security_amount_full := 0, social_security_amount_delayed := 0 }

/-- A zero-flow household with a positive balance for the concrete runs. -/
def wInput : Input :=
  { retirees := [wRetiree], portfolio := wPortfolio, expenses := ⟨0⟩,
    tax_rates := { standard_deduction := 0, tax_levels := [⟨0, 0⟩, ⟨f32Max, 10⟩] } }

/-- The witness clock date: December 15, 2000. -/
def d0W : Date := ⟨2000, 12, 15⟩

/-- A two-record historical dataset (years 1970 and 1971, zero returns). -/
def wRecords : List HistoricalReturnsOneYear :=
  [{ year := 1970, inflation := 0, sp500return := 0, tbill3month := 0,
     tbill10year := 0, corpBonds := 0, realEstate := 0, international := none },
   { year := 1971, inflation := 0, sp500return := 0, tbill3month := 0,
     tbill10year := 0, corpBonds := 0, realEstate := 0, international := some 0 }]

/-- Witness for C7: the concrete two-record scan completes with exactly two
scenarios, and the loop-unfolding clauses hold at concrete arguments. -/
theorem historical_scan_structure_witness :
    (∃ res, run_historical_scan mrId wRecords 3 wInput d0W = some res ∧
      res.scenario_results.length = wRecords.length ∧
      res.num_simulations = wRecords.length) ∧
    ((0 : Nat) < wRecords.length) ∧
    (runScenarioLoop mrId wRecords 3 sDead 0 =
      match stepMonths mrId sDead (wRecords.getD 0 default) 12 with
      | none => none
      | some (true, s') => some (s', 0)
      | some (false, s') => runScenarioLoop mrId wRecords 2 s' ((0 + 1) % wRecords.length)) ∧
    (wRecords ≠ []) ∧
    (runScenarioLoop mrId wRecords 3 sDead (wRecords.length - 1) =
      match stepMonths mrId sDead (wRecords.getD (wRecords.length - 1) default) 12 with
      | none => none
      | some (true, s') => some (s', wRecords.length - 1)
      | some (false, s') => runScenarioLoop mrId wRecords 2 s' 0) := by
  refine ⟨?_, by decide, ?_, by decide, ?_⟩
  · have h : (run_historical_scan mrId wRecords 3 wInput d0W).isSome = true := by
      with_unfolding_all decide
    obtain ⟨res, hres⟩ := Option.isSome_iff_exists.mp h
    obtain ⟨h1, h2, _⟩ :=
      historical_scan_structure.1 mrId wRecords 3 wInput d0W res hres
    exact ⟨res, hres, h1, h2⟩
  · exact historical_scan_structure.2.1 mrId wRecords 2 sDead 0 (by decide)
  · exact historical_scan_structure.2.2 mrId wRecords 2 sDead (by decide)

/-- Witness for C2's amended theorem: the concrete two-record historical
scan satisfies the successful-only extrema characterization, and the
generic aggregation satisfies the all-scenarios characterization. -/
theorem scan_extrema_witness :
    (∃ res, run_historical_scan mrId wRecords 3 wInput d0W = some res ∧
      res.min_balance = minOverSuccessful f32Max res.scenario_results ∧
      res.max_balance = maxOverSuccessful 0 res.scenario_results) ∧
    (run_scan_aggregate [scFailW, scOkW]).min_balance =
      minOverAll f32Max [scFailW, scOkW] := by
  constructor
  · have h : (run_historical_scan mrId wRecords 3 wInput d0W).isSome = true := by
      with_unfolding_all decide
    obtain ⟨res, hres⟩ := Option.isSome_iff_exists.mp h
    exact ⟨res, hres, scan_extrema_by_success.1 mrId wRecords 3 wInput d0W res hres⟩
  · exact (scan_extrema_by_success.2 [scFailW, scOkW]).1

/-!  ## Claim C6: zero-flow scenarios preserve the balance and end by
life expectancy  -/

lemma gss_zero (a : Nat) : get_social_security_monthly_income a 0 0 0 = 0 := by
  simp only [get_social_security_monthly_income]
  split_ifs <;> norm_num

lemma getD_ss_zero (ris : List RetireeInfo)
    (h : ∀ ri ∈ ris, ri.social_security_income = 0) (i : Nat) :
    (ris.getD i default).social_security_income = 0 := by
  cases e : ris[i]? with
  | none => rw [List.getD_eq_getElem?_getD, e]; rfl
  | some ri =>
    have hm : ri ∈ ris := List.getElem?_mem e
    rw [List.getD_eq_getElem?_getD, e]
    exact h ri hm

lemma ss_total_zero (d : Date) (n : Nat) (ris : List RetireeInfo)
    (h : ∀ ri ∈ ris, ri.social_security_income = 0) :
    social_security_income_total d n ris = 0 := by
  have hD := getD_ss_zero ris h
  suffices hgen : ∀ (l : List Nat) (acc : ℚ),
      List.foldl (fun acc i =>
        if Date.lt (ris.getD i default).social_security_date d then
          acc + (ris.getD i default).social_security_income
        else acc) acc l = acc by
    exact hgen (List.range n) 0
  intro l
  induction l with
  | nil => intro acc; rfl
  | cons i rest ih =>
    intro acc
    simp only [List.foldl_cons, hD i, add_zero, ite_self]
    exact ih acc

lemma pension_total_zero (d : Date) (rs : List Retiree)
    (h : ∀ r ∈ rs, r.pension_monthly_income = 0) :
    pension_income_total d rs = 0 := by
  unfold pension_income_total
  suffices hgen : ∀ (l : List Retiree) (acc : ℚ),
      (∀ r ∈ l, r.pension_monthly_income = 0) →
      List.foldl (fun acc r =>
        if Date.le (add_years r.date_of_birth r.pension_age) d then
          acc + r.pension_monthly_income
        else acc) acc l = acc by
    exact hgen rs 0 h
  intro l
  induction l with
  | nil => intro acc _; rfl
  | cons r rest ih =>
    intro acc hl
    simp only [List.foldl_cons, hl r (by simp), add_zero, ite_self]
    exact ih acc (fun x hx => hl x (by simp [hx]))

lemma other_total_zero (d rd : Date) (rs : List Retiree)
    (h : ∀ r ∈ rs, r.other_monthly_retirement_income = 0) :
    other_income_total d rd rs = 0 := by
  unfold other_income_total
  suffices hgen : ∀ (l : List Retiree) (acc : ℚ),
      (∀ r ∈ l, r.other_monthly_retirement_income = 0) →
      List.foldl (fun acc r =>
        if Date.le rd d then acc + r.other_monthly_retirement_income else acc)
        acc l = acc by
    exact hgen rs 0 h
  intro l
  induction l with
  | nil => intro acc _; rfl
  | cons r rest ih =>
    intro acc hl
    simp only [List.foldl_cons, hl r (by simp), add_zero, ite_self]
    exact ih acc (fun x hx => hl x (by simp [hx]))

lemma contributions_id (s : Simulation)
    (h : ∀ r ∈ s.input_.retirees, r.salary_annual = 0) :
    contributions_portfolio s = s.portfolio_ := by
  unfold contributions_portfolio
  suffices hgen : ∀ (l : List Retiree) (p : Portfolio),
      (∀ r ∈ l, r.salary_annual = 0) →
      List.foldl (fun p r =>
        if Date.lt s.current_date_ s.simulation_results_.retirement_date then
          p.deposit (r.salary_annual * r.retirement_contribution_percent / 100 / 12)
        else p) p l = p by
    exact hgen s.input_.retirees s.portfolio_ h
  intro l
  induction l with
  | nil => intro p _; rfl
  | cons r rest ih =>
    intro p hl
    have hdep : p.deposit (r.salary_annual * r.retirement_contribution_percent / 100 / 12) = p := by
      rw [hl r (by simp)]
      simp [Portfolio.deposit]
    simp only [List.foldl_cons, hdep, ite_self]
    exact ih p (fun x hx => hl x (by simp [hx]))

lemma get_taxes_zero (sd : ℚ) (l : TaxLevel) (ls : List TaxLevel)
    (hsd : 0 ≤ sd) (hc : 0 ≤ l.income) :
    get_taxes 0 sd (l :: ls) = some (0, l.rate) := by
  have hded : deduct 0 sd = 0 := by
    unfold deduct
    rw [if_neg]
    push_neg
    positivity
  unfold get_taxes
  rw [hded]
  unfold tax_walk
  rw [if_pos (by simpa using hc)]
  norm_num

lemma grow_zero (mr : ℚ → ℚ) (p : Portfolio) (flag : Bool) (hmr : mr 0 = 0)
    (hpre : allocSum p.pre_retirement_allocation = 100)
    (hpost : allocSum p.post_retirement_allocation = 100) :
    Portfolio.grow mr p 0 0 0 flag = (p, 0) := by
  have key : ∀ a : Allocation, allocSum a = 100 →
      p.balance * a.us_equities / 100 * (mr (0 / 100) + 1) +
        p.balance * a.international / 100 * (mr (0 / 100) + 1) +
        p.balance * a.bonds / 100 * (mr (0 / 100) + 1) = p.balance := by
    intro a ha
    rw [show ((0 : ℚ) / 100) = 0 by norm_num, hmr]
    unfold allocSum at ha
    rw [show p.balance * a.us_equities / 100 * (0 + 1) +
        p.balance * a.international / 100 * (0 + 1) +
        p.balance * a.bonds / 100 * (0 + 1) =
        p.balance * (a.us_equities + a.international + a.bonds) / 100 by ring, ha]
    norm_num
  cases flag with
  | true =>
    have h1 : (Portfolio.grow mr p 0 0 0 true).1 =
        { p with balance :=
            p.balance * p.pre_retirement_allocation.us_equities / 100 * (mr (0 / 100) + 1) +
              p.balance * p.pre_retirement_allocation.international / 100 * (mr (0 / 100) + 1) +
              p.balance * p.pre_retirement_allocation.bonds / 100 * (mr (0 / 100) + 1) } := rfl
    have h2 : (Portfolio.grow mr p 0 0 0 true).2 =
        0 * p.pre_retirement_allocation.us_equities / 100 +
          0 * p.pre_retirement_allocation.international / 100 +
          0 * p.pre_retirement_allocation.bonds / 100 := rfl
    refine Prod.ext ?_ ?_
    · rw [h1, key p.pre_retirement_allocation hpre]
    · rw [h2]; ring
  | false =>
    have h1 : (Portfolio.grow mr p 0 0 0 false).1 =
        { p with balance :=
            p.balance * p.post_retirement_allocation.us_equities / 100 * (mr (0 / 100) + 1) +
              p.balance * p.post_retirement_allocation.international / 100 * (mr (0 / 100) + 1) +
              p.balance * p.post_retirement_allocation.bonds / 100 * (mr (0 / 100) + 1) } := rfl
    have h2 : (Portfolio.grow mr p 0 0 0 false).2 =
        0 * p.post_retirement_allocation.us_equities / 100 +
          0 * p.post_retirement_allocation.international / 100 +
          0 * p.post_retirement_allocation.bonds / 100 := rfl
    refine Prod.ext ?_ ?_
    · rw [h1, key p.post_retirement_allocation hpost]
    · rw [h2]; ring

/-- Linear month index of a date (year times 12 plus month). -/
def Date.monthIndex (d : Date) : Int := d.year * 12 + d.month

lemma monthOk_addOneMonth (d : Date) (h1 : 1 ≤ d.month) (h2 : d.month ≤ 12) :
    1 ≤ (Date.addOneMonth d).month ∧ (Date.addOneMonth d).month ≤ 12 := by
  unfold Date.addOneMonth
  split <;> rename_i h <;> simp only [] <;> omega

lemma monthIndex_addOneMonth (d : Date) (h1 : 1 ≤ d.month) (h2 : d.month ≤ 12) :
    Date.monthIndex (Date.addOneMonth d) = Date.monthIndex d + 1 := by
  unfold Date.addOneMonth Date.monthIndex
  split <;> rename_i h <;> simp only [] <;> push_cast <;> omega

lemma get_age_eq (dob cur : Date) :
    get_age dob cur =
      (cur.year - dob.year -
        (if decide (cur.month < dob.month) ||
            (decide (cur.month = dob.month) && decide (cur.day < dob.day))
         then (1 : Int) else 0)).toNat := by
  unfold get_age years_since
  cases hc : (decide (cur.month < dob.month) ||
      (decide (cur.month = dob.month) && decide (cur.day < dob.day))) with
  | false =>
    simp only [hc, Bool.false_eq_true, if_false]
    by_cases h0 : (0 : Int) ≤ cur.year - dob.year - 0
    · rw [if_pos h0]
    · rw [if_neg h0]
      show (0 : Nat) = _
      omega
  | true =>
    simp only [hc, if_true]
    by_cases h0 : (0 : Int) ≤ cur.year - dob.year - 1
    · rw [if_pos h0]
    · rw [if_neg h0]
      show (0 : Nat) = _
      omega

lemma lt_get_age (dob cur : Date) (L : Nat)
    (h : dob.year + (L : Int) + 2 ≤ cur.year) : L < get_age dob cur := by
  rw [get_age_eq]
  have hadj : (if decide (cur.month < dob.month) ||
      (decide (cur.month = dob.month) && decide (cur.day < dob.day))
      then (1 : Int) else 0) ≤ 1 := by split <;> omega
  have hadj0 : (0 : Int) ≤ (if decide (cur.month < dob.month) ||
      (decide (cur.month = dob.month) && decide (cur.day < dob.day))
      then (1 : Int) else 0) := by split <;> omega
  omega

lemma dead_of_year (input : Input) (d : Date)
    (hT : ∀ r ∈ input.retirees,
      r.date_of_birth.year + (r.life_expectency : Int) + 2 ≤ d.year) :
    is_everyone_dead d input = true := by
  simp only [is_everyone_dead, List.all_eq_true, decide_eq_true_eq]
  intro r hr
  exact lt_get_age r.date_of_birth d r.life_expectency (hT r hr)

/-- An upper bound on the year by which every retiree of the household is
past their life expectancy. -/
def deadYearBound (input : Input) : Int :=
  input.retirees.foldl
    (fun acc r => max acc (r.date_of_birth.year + (r.life_expectency : Int) + 2)) 0

lemma foldl_max_le (g : Retiree → Int) :
    ∀ (l : List Retiree) (init : Int),
      init ≤ l.foldl (fun acc r => max acc (g r)) init ∧
      ∀ r ∈ l, g r ≤ l.foldl (fun acc r => max acc (g r)) init := by
  intro l
  induction l with
  | nil => intro init; exact ⟨le_refl _, by simp⟩
  | cons r rest ih =>
    intro init
    obtain ⟨h1, h2⟩ := ih (max init (g r))
    refine ⟨le_trans (le_max_left _ _) h1, ?_⟩
    intro x hx
    rcases List.mem_cons.mp hx with h | h
    · subst h
      exact le_trans (le_max_right _ _) h1
    · exact h2 x h

lemma le_deadYearBound (input : Input) :
    ∀ r ∈ input.retirees,
      r.date_of_birth.year + (r.life_expectency : Int) + 2 ≤ deadYearBound input :=
  (foldl_max_le (fun r => r.date_of_birth.year + (r.life_expectency : Int) + 2)
    input.retirees 0).2

/-- The zero-flow household configuration of claim C6: zero expenses, zero
income of every kind, allocations summing to 100 — together with the
data-model validity facts the engine relies on (non-negative standard
deduction, a non-empty tax schedule with non-negative ceilings) and a
positive starting balance. -/
def ZeroCfg (input : Input) : Prop :=
  input.expenses.monthly = 0 ∧
  (∀ r ∈ input.retirees,
    r.salary_annual = 0 ∧ r.pension_monthly_income = 0 ∧
    r.other_monthly_retirement_income = 0 ∧ r.social_security_amount_early = 0 ∧
    r.social_security_amount_full = 0 ∧ r.social_security_amount_delayed = 0) ∧
  allocSum input.portfolio.pre_retirement_allocation = 100 ∧
  allocSum input.portfolio.post_retirement_allocation = 100 ∧
  0 ≤ input.tax_rates.standard_deduction ∧
  input.tax_rates.tax_levels ≠ [] ∧
  (∀ l ∈ input.tax_rates.tax_levels, 0 ≤ l.income) ∧
  0 < input.portfolio.balance

/-- The engine-state invariant maintained by the monthly step under a
zero-flow configuration. -/
def GoodState (input : Input) (s : Simulation) : Prop :=
  s.input_ = input ∧
  s.expenses_ = input.expenses.monthly ∧
  s.tax_rates_ = input.tax_rates.tax_levels ∧
  (∀ ri ∈ s.simulation_results_.retirees, ri.social_security_income = 0) ∧
  s.portfolio_.balance = input.portfolio.balance ∧
  s.portfolio_.pre_retirement_allocation = input.portfolio.pre_retirement_allocation ∧
  s.portfolio_.post_retirement_allocation = input.portfolio.post_retirement_allocation ∧
  1 ≤ s.current_date_.month ∧ s.current_date_.month ≤ 12

lemma withdraw_zero (p : Portfolio) (h : 0 < p.balance) : p.withdraw 0 = p := by
  simp only [Portfolio.withdraw, sub_zero]
  rw [if_neg (by linarith)]

lemma month_finish_zero (mr : ℚ → ℚ) (s : Simulation) (rate : ℚ)
    (hmr : mr 0 = 0)
    (hsal : ∀ r ∈ s.input_.retirees, r.salary_annual = 0)
    (hss : ∀ ri ∈ s.simulation_results_.retirees, ri.social_security_income = 0)
    (hpen : ∀ r ∈ s.input_.retirees, r.pension_monthly_income = 0)
    (hoth : ∀ r ∈ s.input_.retirees, r.other_monthly_retirement_income = 0)
    (hexp : s.expenses_ = 0)
    (hbal : 0 < s.portfolio_.balance)
    (hpre : allocSum s.portfolio_.pre_retirement_allocation = 100)
    (hpost : allocSum s.portfolio_.post_retirement_allocation = 100) :
    (month_finish mr s 0 0 0 0 rate).1 = false ∧
    (month_finish mr s 0 0 0 0 rate).2.portfolio_ = s.portfolio_ ∧
    (month_finish mr s 0 0 0 0 rate).2.input_ = s.input_ ∧
    (month_finish mr s 0 0 0 0 rate).2.expenses_ = s.expenses_ ∧
    (month_finish mr s 0 0 0 0 rate).2.tax_rates_ = s.tax_rates_ ∧
    (month_finish mr s 0 0 0 0 rate).2.simulation_results_.retirees =
      s.simulation_results_.retirees ∧
    (month_finish mr s 0 0 0 0 rate).2.current_date_ =
      Date.addOneMonth s.current_date_ := by
  have hinc : month_income s = 0 := by
    unfold month_income
    rw [ss_total_zero _ _ _ hss, pension_total_zero _ _ hpen,
      other_total_zero _ _ _ hoth]
    norm_num
  have hw : month_withdrawals s = 0 := by
    unfold month_withdrawals
    rw [hinc, hexp]
    simp
  have hcp : contributions_portfolio s = s.portfolio_ := contributions_id s hsal
  have hlt : ¬ ((0 : ℚ) < 0) := lt_irrefl 0
  have hproj : (month_finish mr s 0 0 0 0 rate).2.portfolio_ = s.portfolio_ := by
    simp only [month_finish]
    rw [hinc, hw, hcp, hexp, zero_div, if_neg hlt, if_pos hbal,
      withdraw_zero s.portfolio_ hbal, if_pos hbal, withdraw_zero s.portfolio_ hbal,
      grow_zero mr s.portfolio_ _ hmr hpre hpost]
  have hfin : (month_finish mr s 0 0 0 0 rate).1 = false := by
    simp only [month_finish]
    rw [hinc, hw, hcp, hexp, zero_div, if_neg hlt, if_pos hbal,
      withdraw_zero s.portfolio_ hbal, if_pos hbal, withdraw_zero s.portfolio_ hbal,
      grow_zero mr s.portfolio_ _ hmr hpre hpost]
    simp only [decide_eq_false_iff_not]
    exact hbal.ne'
  exact ⟨hfin, hproj, rfl, rfl, rfl, rfl, rfl⟩

lemma step_zero_alive (mr : ℚ → ℚ) (input : Input) (s : Simulation)
    (hmr : mr 0 = 0) (hz : ZeroCfg input) (hgs : GoodState input s)
    (hd : is_everyone_dead s.current_date_ s.input_ = false) :
    ∃ s', run_simulation_one_month mr s 0 0 0 = some (false, s') ∧
      GoodState input s' ∧
      s'.current_date_ = Date.addOneMonth s.current_date_ := by
  obtain ⟨hin, hexp, htr, hss, hbal, hpre, hpost, hm1, hm2⟩ := hgs
  obtain ⟨hze, hzr, hzpre, hzpost, hzsd, hzne, hznn, hzbal⟩ := hz
  have hsal : ∀ r ∈ s.input_.retirees, r.salary_annual = 0 := by
    rw [hin]; intro r hr; exact (hzr r hr).1
  have hpen : ∀ r ∈ s.input_.retirees, r.pension_monthly_income = 0 := by
    rw [hin]; intro r hr; exact (hzr r hr).2.1
  have hoth : ∀ r ∈ s.input_.retirees, r.other_monthly_retirement_income = 0 := by
    rw [hin]; intro r hr; exact (hzr r hr).2.2.1
  have hexp0 : s.expenses_ = 0 := by rw [hexp, hze]
  have hbal0 : 0 < s.portfolio_.balance := by rw [hbal]; exact hzbal
  have hpre0 : allocSum s.portfolio_.pre_retirement_allocation = 100 := by
    rw [hpre]; exact hzpre
  have hpost0 : allocSum s.portfolio_.post_retirement_allocation = 100 := by
    rw [hpost]; exact hzpost
  obtain ⟨l, ls, hlev⟩ := List.exists_cons_of_ne_nil hzne
  have htaxarg : month_withdrawals s + month_taxable_income s = 0 := by
    have h1 : month_taxable_income s = 0 := by
      unfold month_taxable_income
      rw [ss_total_zero _ _ _ hss, pension_total_zero _ _ hpen,
        other_total_zero _ _ _ hoth]
      norm_num
    have h2 : month_withdrawals s = 0 := by
      have hinc : month_income s = 0 := by
        unfold month_income
        rw [ss_total_zero _ _ _ hss, pension_total_zero _ _ hpen,
          other_total_zero _ _ _ hoth]
        norm_num
      unfold month_withdrawals
      rw [hinc, hexp0]
      simp
    rw [h1, h2]
    norm_num
  have htax : get_taxes (month_withdrawals s + month_taxable_income s)
      s.input_.tax_rates.standard_deduction s.tax_rates_ = some (0, l.rate) := by
    rw [htaxarg, htr, hlev, hin]
    exact get_taxes_zero input.tax_rates.standard_deduction l ls hzsd
      (hznn l (by rw [hlev]; simp))
  have hstep : run_simulation_one_month mr s 0 0 0 =
      some (month_finish mr s 0 0 0 0 l.rate) := by
    rw [run_simulation_one_month, if_neg (by simp [hd]), htax]
  obtain ⟨hf1, hf2, hf3, hf4, hf5, hf6, hf7⟩ :=
    month_finish_zero mr s l.rate hmr hsal hss hpen hoth hexp0 hbal0 hpre0 hpost0
  refine ⟨(month_finish mr s 0 0 0 0 l.rate).2, ?_, ?_, hf7⟩
  · rw [hstep,
      show month_finish mr s 0 0 0 0 l.rate =
        (false, (month_finish mr s 0 0 0 0 l.rate).2) from Prod.ext hf1 rfl]
  · refine ⟨by rw [hf3, hin], by rw [hf4, hexp], by rw [hf5, htr],
      by rw [hf6]; exact hss, by rw [hf2, hbal], by rw [hf2, hpre],
      by rw [hf2, hpost], ?_, ?_⟩
    · rw [hf7]; exact (monthOk_addOneMonth s.current_date_ hm1 hm2).1
    · rw [hf7]; exact (monthOk_addOneMonth s.current_date_ hm1 hm2).2

lemma runN_dead (mr : ℚ → ℚ) (us_r intl_r bonds_r : ℚ) :
    ∀ (n : Nat) (s : Simulation),
      is_everyone_dead s.current_date_ s.input_ = true →
      runN mr us_r intl_r bonds_r n s = some s := by
  intro n
  induction n with
  | zero => intro s _; rfl
  | succ n ih =>
    intro s hd
    have hstep : run_simulation_one_month mr s us_r intl_r bonds_r = some (true, s) := by
      rw [run_simulation_one_month, if_pos hd]
    simp only [runN, hstep]
    exact ih s hd

lemma runN_inv (mr : ℚ → ℚ) (input : Input) (hmr : mr 0 = 0) (hz : ZeroCfg input) :
    ∀ (n : Nat) (s : Simulation), GoodState input s →
      ∃ sn, runN mr 0 0 0 n s = some sn ∧ GoodState input sn ∧
        (Date.monthIndex sn.current_date_ = Date.monthIndex s.current_date_ + n ∨
          is_everyone_dead sn.current_date_ input = true) := by
  intro n
  induction n with
  | zero =>
    intro s hgs
    exact ⟨s, rfl, hgs, Or.inl (by simp)⟩
  | succ n ih =>
    intro s hgs
    cases hd : is_everyone_dead s.current_date_ s.input_ with
    | true =>
      refine ⟨s, runN_dead mr 0 0 0 (n + 1) s hd, hgs, Or.inr ?_⟩
      rw [← hgs.1]
      exact hd
    | false =>
      obtain ⟨s', hstep, hgs', hdate⟩ := step_zero_alive mr input s hmr hz hgs hd
      obtain ⟨sn, hrun, hgood, hidx⟩ := ih s' hgs'
      refine ⟨sn, ?_, hgood, ?_⟩
      · simp only [runN, hstep]
        exact hrun
      · rcases hidx with hidx | hidx
        · left
          rw [hidx, hdate,
            monthIndex_addOneMonth s.current_date_ hgs.2.2.2.2.2.2.2.1
              hgs.2.2.2.2.2.2.2.2]
          push_cast
          ring
        · right
          exact hidx

lemma eventually_dead (mr : ℚ → ℚ) (input : Input) (hmr : mr 0 = 0)
    (hz : ZeroCfg input) :
    ∀ s : Simulation, GoodState input s →
      ∃ n sn, runN mr 0 0 0 n s = some sn ∧ GoodState input sn ∧
        is_everyone_dead sn.current_date_ input = true := by
  intro s hgs
  obtain ⟨sn, hrun, hgood, hidx⟩ := runN_inv mr input hmr hz
    (12 * deadYearBound input + 12 - Date.monthIndex s.current_date_).toNat s hgs
  refine ⟨_, sn, hrun, hgood, ?_⟩
  rcases hidx with hidx | hidx
  · apply dead_of_year
    intro r hr
    have hb := le_deadYearBound input r hr
    have hm2 : sn.current_date_.month ≤ 12 := hgood.2.2.2.2.2.2.2.2
    have hNle : (12 * deadYearBound input + 12 - Date.monthIndex s.current_date_ : Int) ≤
        ((12 * deadYearBound input + 12 - Date.monthIndex s.current_date_).toNat : Int) :=
      Int.self_le_toNat _
    have hdef1 : Date.monthIndex sn.current_date_ =
        sn.current_date_.year * 12 + (sn.current_date_.month : Int) := rfl
    omega
  · exact hidx

lemma new_good (input : Input) (d0 : Date) (s0 : Simulation) (hz : ZeroCfg input)
    (hm : 1 ≤ d0.month ∧ d0.month ≤ 12)
    (hnew : Simulation.new input d0 = some s0) : GoodState input s0 := by
  unfold Simulation.new at hnew
  cases hr : input.retirees with
  | nil => rw [hr] at hnew; exact absurd hnew (by simp)
  | cons r0 rest =>
    rw [hr] at hnew
    simp only [Option.some.injEq] at hnew
    subst hnew
    refine ⟨rfl, rfl, rfl, ?_, rfl, rfl, rfl, hm.1, hm.2⟩
    intro ri hri
    simp only [] at hri
    obtain ⟨r, hr2, hf⟩ := List.mem_map.mp hri
    have hr2' : r ∈ input.retirees := by rw [hr]; exact hr2
    have hz2 := hz.2.1 r hr2' 
    rw [← hf]
    simp only []
    rw [hz2.2.2.2.1, hz2.2.2.2.2.1, hz2.2.2.2.2.2]
    exact gss_zero _

/-- C6.  For every zero-flow household configuration (zero expenses, zero
income of every kind, allocations summing to 100, valid tax schedule,
positive starting balance) and zero returns every month: (1) every monthly
step leaves the portfolio balance unchanged; (2) the finished signal is
raised only when everyone is past their life expectancy — never by
depletion; (3) the scenario does terminate, by the life-expectancy
condition, with the balance still at its positive starting value. -/
theorem zero_flow_scenario (mr : ℚ → ℚ) (input : Input) (d0 : Date)
    (s0 : Simulation) (hmr : mr 0 = 0) (hz : ZeroCfg input)
    (hd0 : 1 ≤ d0.month ∧ d0.month ≤ 12)
    (hnew : Simulation.new input d0 = some s0) :
    (∀ n, ∃ sn, runN mr 0 0 0 n s0 = some sn ∧
        sn.portfolio_.balance = input.portfolio.balance) ∧
    (∀ (n : Nat) (sn : Simulation) (fin : Bool) (sn1 : Simulation),
        runN mr 0 0 0 n s0 = some sn →
        run_simulation_one_month mr sn 0 0 0 = some (fin, sn1) → fin = true →
        is_everyone_dead sn.current_date_ input = true) ∧
    (∃ n sn, runN mr 0 0 0 n s0 = some sn ∧
        run_simulation_one_month mr sn 0 0 0 = some (true, sn) ∧
        is_everyone_dead sn.current_date_ input = true ∧
        sn.portfolio_.balance = input.portfolio.balance ∧
        0 < sn.portfolio_.balance) := by
  have hgs0 := new_good input d0 s0 hz hd0 hnew
  refine ⟨?_, ?_, ?_⟩
  · intro n
    obtain ⟨sn, hrun, hgood, _⟩ := runN_inv mr input hmr hz n s0 hgs0
    exact ⟨sn, hrun, hgood.2.2.2.2.1⟩
  · intro n sn fin sn1 hrun hstep hfin
    obtain ⟨sn', hrun', hgood, _⟩ := runN_inv mr input hmr hz n s0 hgs0
    rw [hrun] at hrun'
    simp only [Option.some.injEq] at hrun'
    subst hrun'
    cases hd : is_everyone_dead sn.current_date_ sn.input_ with
    | true => rw [← hgood.1]; exact hd
    | false =>
      obtain ⟨s', hstep', _, _⟩ := step_zero_alive mr input sn hmr hz hgood hd
      rw [hstep'] at hstep
      simp only [Option.some.injEq, Prod.mk.injEq] at hstep
      rw [← hstep.1] at hfin
      exact absurd hfin (by simp)
  · obtain ⟨n, sn, hrun, hgood, hdead⟩ := eventually_dead mr input hmr hz s0 hgs0
    have hstep : run_simulation_one_month mr sn 0 0 0 = some (true, sn) := by
      rw [run_simulation_one_month, if_pos (by rw [hgood.1]; exact hdead)]
    exact ⟨n, sn, hrun, hstep, hdead, hgood.2.2.2.2.1,
      by rw [hgood.2.2.2.2.1]; exact hz.2.2.2.2.2.2.2⟩

/-- Witness for C6: the concrete zero-flow household `wInput` satisfies all
hypotheses, and the conclusions hold for the state built by
`Simulation.new` at the December 2000 clock date. -/
theorem zero_flow_scenario_witness :
    mrId 0 = 0 ∧ ZeroCfg wInput ∧ (1 ≤ d0W.month ∧ d0W.month ≤ 12) ∧
    ∃ s0, Simulation.new wInput d0W = some s0 ∧
      (∀ n, ∃ sn, runN mrId 0 0 0 n s0 = some sn ∧
          sn.portfolio_.balance = wInput.portfolio.balance) ∧
      (∃ n sn, runN mrId 0 0 0 n s0 = some sn ∧
          run_simulation_one_month mrId sn 0 0 0 = some (true, sn) ∧
          is_everyone_dead sn.current_date_ wInput = true ∧
          sn.portfolio_.balance = wInput.portfolio.balance ∧
          0 < sn.portfolio_.balance) := by
  have hz : ZeroCfg wInput := by
    unfold ZeroCfg
    with_unfolding_all decide
  have hnew : (Simulation.new wInput d0W).isSome = true := by decide
  obtain ⟨s0, hs0⟩ := Option.isSome_iff_exists.mp hnew
  obtain ⟨h1, _, h3⟩ := zero_flow_scenario mrId wInput d0W s0 rfl hz
    (by decide) hs0
  exact ⟨rfl, hz, by decide, s0, hs0, h1, h3⟩
